import Mathlib

/-! SafeRoute crime map: the classifier and the crime data endpoint of `server.js`.

A shallow embedding of `mapCrimeType`, `getCrimeSeverity` and the handler of
`GET /api/crime`, with the properties of the written specification stated over it.

Strings are sequences of Unicode scalar values. Values read from the upstream JSON are
dynamically typed (`JsValue`); numbers are the integer valued ones. Floating point parsing,
the localized date format and the conversion of objects to primitive values are supplied by
a `Host`.
-/

namespace SafeRoute

/-! ## Unicode case tables -/

/-- Code points with a one code point upper-case mapping in the Unicode Character Database
(version 14.0), packed as runs (first, last, stride, image of first): the code point first +
k * stride, up to last, maps to image + k * stride. -/
def upperRuns : List (Nat × Nat × Nat × Nat) := [
  (97, 122, 1, 65), (181, 181, 1, 924), (224, 246, 1, 192), (248, 254, 1, 216),
  (255, 255, 1, 376), (257, 303, 2, 256), (305, 305, 1, 73), (307, 311, 2, 306),
  (314, 328, 2, 313), (331, 375, 2, 330), (378, 382, 2, 377), (383, 383, 1, 83),
  (384, 384, 1, 579), (387, 389, 2, 386), (392, 392, 1, 391), (396, 396, 1, 395),
  (402, 402, 1, 401), (405, 405, 1, 502), (409, 409, 1, 408), (410, 410, 1, 573),
  (414, 414, 1, 544), (417, 421, 2, 416), (424, 424, 1, 423), (429, 429, 1, 428),
  (432, 432, 1, 431), (436, 438, 2, 435), (441, 441, 1, 440), (445, 445, 1, 444),
  (447, 447, 1, 503), (453, 453, 1, 452), (454, 454, 1, 452), (456, 456, 1, 455),
  (457, 457, 1, 455), (459, 459, 1, 458), (460, 460, 1, 458), (462, 476, 2, 461),
  (477, 477, 1, 398), (479, 495, 2, 478), (498, 498, 1, 497), (499, 499, 1, 497),
  (501, 501, 1, 500), (505, 543, 2, 504), (547, 563, 2, 546), (572, 572, 1, 571),
  (575, 576, 1, 11390), (578, 578, 1, 577), (583, 591, 2, 582), (592, 592, 1, 11375),
  (593, 593, 1, 11373), (594, 594, 1, 11376), (595, 595, 1, 385), (596, 596, 1, 390),
  (598, 599, 1, 393), (601, 601, 1, 399), (603, 603, 1, 400), (604, 604, 1, 42923),
  (608, 608, 1, 403), (609, 609, 1, 42924), (611, 611, 1, 404), (613, 613, 1, 42893),
  (614, 614, 1, 42922), (616, 616, 1, 407), (617, 617, 1, 406), (618, 618, 1, 42926),
  (619, 619, 1, 11362), (620, 620, 1, 42925), (623, 623, 1, 412), (625, 625, 1, 11374),
  (626, 626, 1, 413), (629, 629, 1, 415), (637, 637, 1, 11364), (640, 640, 1, 422),
  (642, 642, 1, 42949), (643, 643, 1, 425), (647, 647, 1, 42929), (648, 648, 1, 430),
  (649, 649, 1, 580), (650, 651, 1, 433), (652, 652, 1, 581), (658, 658, 1, 439),
  (669, 669, 1, 42930), (670, 670, 1, 42928), (837, 837, 1, 921), (881, 883, 2, 880),
  (887, 887, 1, 886), (891, 893, 1, 1021), (940, 940, 1, 902), (941, 943, 1, 904),
  (945, 961, 1, 913), (962, 962, 1, 931), (963, 971, 1, 931), (972, 972, 1, 908),
  (973, 974, 1, 910), (976, 976, 1, 914), (977, 977, 1, 920), (981, 981, 1, 934),
  (982, 982, 1, 928), (983, 983, 1, 975), (985, 1007, 2, 984), (1008, 1008, 1, 922),
  (1009, 1009, 1, 929), (1010, 1010, 1, 1017), (1011, 1011, 1, 895), (1013, 1013, 1, 917),
  (1016, 1016, 1, 1015), (1019, 1019, 1, 1018), (1072, 1103, 1, 1040), (1104, 1119, 1, 1024),
  (1121, 1153, 2, 1120), (1163, 1215, 2, 1162), (1218, 1230, 2, 1217), (1231, 1231, 1, 1216),
  (1233, 1327, 2, 1232), (1377, 1414, 1, 1329), (4304, 4346, 1, 7312), (4349, 4351, 1, 7357),
  (5112, 5117, 1, 5104), (7296, 7296, 1, 1042), (7297, 7297, 1, 1044), (7298, 7298, 1, 1054),
  (7299, 7300, 1, 1057), (7301, 7301, 1, 1058), (7302, 7302, 1, 1066), (7303, 7303, 1, 1122),
  (7304, 7304, 1, 42570), (7545, 7545, 1, 42877), (7549, 7549, 1, 11363), (7566, 7566, 1, 42950),
  (7681, 7829, 2, 7680), (7835, 7835, 1, 7776), (7841, 7935, 2, 7840), (7936, 7943, 1, 7944),
  (7952, 7957, 1, 7960), (7968, 7975, 1, 7976), (7984, 7991, 1, 7992), (8000, 8005, 1, 8008),
  (8017, 8023, 2, 8025), (8032, 8039, 1, 8040), (8048, 8049, 1, 8122), (8050, 8053, 1, 8136),
  (8054, 8055, 1, 8154), (8056, 8057, 1, 8184), (8058, 8059, 1, 8170), (8060, 8061, 1, 8186),
  (8112, 8113, 1, 8120), (8126, 8126, 1, 921), (8144, 8145, 1, 8152), (8160, 8161, 1, 8168),
  (8165, 8165, 1, 8172), (8526, 8526, 1, 8498), (8560, 8575, 1, 8544), (8580, 8580, 1, 8579),
  (9424, 9449, 1, 9398), (11312, 11359, 1, 11264), (11361, 11361, 1, 11360),
  (11365, 11365, 1, 570), (11366, 11366, 1, 574), (11368, 11372, 2, 11367),
  (11379, 11379, 1, 11378), (11382, 11382, 1, 11381), (11393, 11491, 2, 11392),
  (11500, 11502, 2, 11499), (11507, 11507, 1, 11506), (11520, 11557, 1, 4256),
  (11559, 11559, 1, 4295), (11565, 11565, 1, 4301), (42561, 42605, 2, 42560),
  (42625, 42651, 2, 42624), (42787, 42799, 2, 42786), (42803, 42863, 2, 42802),
  (42874, 42876, 2, 42873), (42879, 42887, 2, 42878), (42892, 42892, 1, 42891),
  (42897, 42899, 2, 42896), (42900, 42900, 1, 42948), (42903, 42921, 2, 42902),
  (42933, 42947, 2, 42932), (42952, 42954, 2, 42951), (42961, 42961, 1, 42960),
  (42967, 42969, 2, 42966), (42998, 42998, 1, 42997), (43859, 43859, 1, 42931),
  (43888, 43967, 1, 5024), (65345, 65370, 1, 65313), (66600, 66639, 1, 66560),
  (66776, 66811, 1, 66736), (66967, 66977, 1, 66928), (66979, 66993, 1, 66940),
  (66995, 67001, 1, 66956), (67003, 67004, 1, 66964), (68800, 68850, 1, 68736),
  (71872, 71903, 1, 71840), (93792, 93823, 1, 93760), (125218, 125251, 1, 125184)]

/-- Code points whose upper-case mapping is several code points long: the unconditional entries
of SpecialCasing.txt, such as U+00DF, which maps to SS. -/
def upperSpecial : List (Nat × List Nat) := [
  (223, [83, 83]), (329, [700, 78]), (496, [74, 780]), (912, [921, 776, 769]),
  (944, [933, 776, 769]), (1415, [1333, 1362]), (7830, [72, 817]), (7831, [84, 776]),
  (7832, [87, 778]), (7833, [89, 778]), (7834, [65, 702]), (8016, [933, 787]),
  (8018, [933, 787, 768]), (8020, [933, 787, 769]), (8022, [933, 787, 834]), (8064, [7944, 921]),
  (8065, [7945, 921]), (8066, [7946, 921]), (8067, [7947, 921]), (8068, [7948, 921]),
  (8069, [7949, 921]), (8070, [7950, 921]), (8071, [7951, 921]), (8072, [7944, 921]),
  (8073, [7945, 921]), (8074, [7946, 921]), (8075, [7947, 921]), (8076, [7948, 921]),
  (8077, [7949, 921]), (8078, [7950, 921]), (8079, [7951, 921]), (8080, [7976, 921]),
  (8081, [7977, 921]), (8082, [7978, 921]), (8083, [7979, 921]), (8084, [7980, 921]),
  (8085, [7981, 921]), (8086, [7982, 921]), (8087, [7983, 921]), (8088, [7976, 921]),
  (8089, [7977, 921]), (8090, [7978, 921]), (8091, [7979, 921]), (8092, [7980, 921]),
  (8093, [7981, 921]), (8094, [7982, 921]), (8095, [7983, 921]), (8096, [8040, 921]),
  (8097, [8041, 921]), (8098, [8042, 921]), (8099, [8043, 921]), (8100, [8044, 921]),
  (8101, [8045, 921]), (8102, [8046, 921]), (8103, [8047, 921]), (8104, [8040, 921]),
  (8105, [8041, 921]), (8106, [8042, 921]), (8107, [8043, 921]), (8108, [8044, 921]),
  (8109, [8045, 921]), (8110, [8046, 921]), (8111, [8047, 921]), (8114, [8122, 921]),
  (8115, [913, 921]), (8116, [902, 921]), (8118, [913, 834]), (8119, [913, 834, 921]),
  (8124, [913, 921]), (8130, [8138, 921]), (8131, [919, 921]), (8132, [905, 921]),
  (8134, [919, 834]), (8135, [919, 834, 921]), (8140, [919, 921]), (8146, [921, 776, 768]),
  (8147, [921, 776, 769]), (8150, [921, 834]), (8151, [921, 776, 834]), (8162, [933, 776, 768]),
  (8163, [933, 776, 769]), (8164, [929, 787]), (8166, [933, 834]), (8167, [933, 776, 834]),
  (8178, [8186, 921]), (8179, [937, 921]), (8180, [911, 921]), (8182, [937, 834]),
  (8183, [937, 834, 921]), (8188, [937, 921]), (64256, [70, 70]), (64257, [70, 73]),
  (64258, [70, 76]), (64259, [70, 70, 73]), (64260, [70, 70, 76]), (64261, [83, 84]),
  (64262, [83, 84]), (64275, [1348, 1350]), (64276, [1348, 1333]), (64277, [1348, 1339]),
  (64278, [1358, 1350]), (64279, [1348, 1341])]

/-- Code points with a one code point lower-case mapping in the Unicode Character Database
(version 14.0), packed like upperRuns. -/
def lowerRuns : List (Nat × Nat × Nat × Nat) := [
  (65, 90, 1, 97), (192, 214, 1, 224), (216, 222, 1, 248), (256, 302, 2, 257),
  (306, 310, 2, 307), (313, 327, 2, 314), (330, 374, 2, 331), (376, 376, 1, 255),
  (377, 381, 2, 378), (385, 385, 1, 595), (386, 388, 2, 387), (390, 390, 1, 596),
  (391, 391, 1, 392), (393, 394, 1, 598), (395, 395, 1, 396), (398, 398, 1, 477),
  (399, 399, 1, 601), (400, 400, 1, 603), (401, 401, 1, 402), (403, 403, 1, 608),
  (404, 404, 1, 611), (406, 406, 1, 617), (407, 407, 1, 616), (408, 408, 1, 409),
  (412, 412, 1, 623), (413, 413, 1, 626), (415, 415, 1, 629), (416, 420, 2, 417),
  (422, 422, 1, 640), (423, 423, 1, 424), (425, 425, 1, 643), (428, 428, 1, 429),
  (430, 430, 1, 648), (431, 431, 1, 432), (433, 434, 1, 650), (435, 437, 2, 436),
  (439, 439, 1, 658), (440, 440, 1, 441), (444, 444, 1, 445), (452, 452, 1, 454),
  (453, 453, 1, 454), (455, 455, 1, 457), (456, 456, 1, 457), (458, 458, 1, 460),
  (459, 475, 2, 460), (478, 494, 2, 479), (497, 497, 1, 499), (498, 500, 2, 499),
  (502, 502, 1, 405), (503, 503, 1, 447), (504, 542, 2, 505), (544, 544, 1, 414),
  (546, 562, 2, 547), (570, 570, 1, 11365), (571, 571, 1, 572), (573, 573, 1, 410),
  (574, 574, 1, 11366), (577, 577, 1, 578), (579, 579, 1, 384), (580, 580, 1, 649),
  (581, 581, 1, 652), (582, 590, 2, 583), (880, 882, 2, 881), (886, 886, 1, 887),
  (895, 895, 1, 1011), (902, 902, 1, 940), (904, 906, 1, 941), (908, 908, 1, 972),
  (910, 911, 1, 973), (913, 929, 1, 945), (931, 939, 1, 963), (975, 975, 1, 983),
  (984, 1006, 2, 985), (1012, 1012, 1, 952), (1015, 1015, 1, 1016), (1017, 1017, 1, 1010),
  (1018, 1018, 1, 1019), (1021, 1023, 1, 891), (1024, 1039, 1, 1104), (1040, 1071, 1, 1072),
  (1120, 1152, 2, 1121), (1162, 1214, 2, 1163), (1216, 1216, 1, 1231), (1217, 1229, 2, 1218),
  (1232, 1326, 2, 1233), (1329, 1366, 1, 1377), (4256, 4293, 1, 11520), (4295, 4295, 1, 11559),
  (4301, 4301, 1, 11565), (5024, 5103, 1, 43888), (5104, 5109, 1, 5112), (7312, 7354, 1, 4304),
  (7357, 7359, 1, 4349), (7680, 7828, 2, 7681), (7838, 7838, 1, 223), (7840, 7934, 2, 7841),
  (7944, 7951, 1, 7936), (7960, 7965, 1, 7952), (7976, 7983, 1, 7968), (7992, 7999, 1, 7984),
  (8008, 8013, 1, 8000), (8025, 8031, 2, 8017), (8040, 8047, 1, 8032), (8072, 8079, 1, 8064),
  (8088, 8095, 1, 8080), (8104, 8111, 1, 8096), (8120, 8121, 1, 8112), (8122, 8123, 1, 8048),
  (8124, 8124, 1, 8115), (8136, 8139, 1, 8050), (8140, 8140, 1, 8131), (8152, 8153, 1, 8144),
  (8154, 8155, 1, 8054), (8168, 8169, 1, 8160), (8170, 8171, 1, 8058), (8172, 8172, 1, 8165),
  (8184, 8185, 1, 8056), (8186, 8187, 1, 8060), (8188, 8188, 1, 8179), (8486, 8486, 1, 969),
  (8490, 8490, 1, 107), (8491, 8491, 1, 229), (8498, 8498, 1, 8526), (8544, 8559, 1, 8560),
  (8579, 8579, 1, 8580), (9398, 9423, 1, 9424), (11264, 11311, 1, 11312),
  (11360, 11360, 1, 11361), (11362, 11362, 1, 619), (11363, 11363, 1, 7549),
  (11364, 11364, 1, 637), (11367, 11371, 2, 11368), (11373, 11373, 1, 593),
  (11374, 11374, 1, 625), (11375, 11375, 1, 592), (11376, 11376, 1, 594),
  (11378, 11378, 1, 11379), (11381, 11381, 1, 11382), (11390, 11391, 1, 575),
  (11392, 11490, 2, 11393), (11499, 11501, 2, 11500), (11506, 11506, 1, 11507),
  (42560, 42604, 2, 42561), (42624, 42650, 2, 42625), (42786, 42798, 2, 42787),
  (42802, 42862, 2, 42803), (42873, 42875, 2, 42874), (42877, 42877, 1, 7545),
  (42878, 42886, 2, 42879), (42891, 42891, 1, 42892), (42893, 42893, 1, 613),
  (42896, 42898, 2, 42897), (42902, 42920, 2, 42903), (42922, 42922, 1, 614),
  (42923, 42923, 1, 604), (42924, 42924, 1, 609), (42925, 42925, 1, 620), (42926, 42926, 1, 618),
  (42928, 42928, 1, 670), (42929, 42929, 1, 647), (42930, 42930, 1, 669),
  (42931, 42931, 1, 43859), (42932, 42946, 2, 42933), (42948, 42948, 1, 42900),
  (42949, 42949, 1, 642), (42950, 42950, 1, 7566), (42951, 42953, 2, 42952),
  (42960, 42960, 1, 42961), (42966, 42968, 2, 42967), (42997, 42997, 1, 42998),
  (65313, 65338, 1, 65345), (66560, 66599, 1, 66600), (66736, 66771, 1, 66776),
  (66928, 66938, 1, 66967), (66940, 66954, 1, 66979), (66956, 66962, 1, 66995),
  (66964, 66965, 1, 67003), (68736, 68786, 1, 68800), (71840, 71871, 1, 71872),
  (93760, 93791, 1, 93792), (125184, 125217, 1, 125218)]

/-- Code points whose lower-case mapping is several code points long (U+0130 is the only one). -/
def lowerSpecial : List (Nat × List Nat) := [
  (304, [105, 775])]

/-- Inclusive ranges of the code points with the Case_Ignorable property (Unicode 14.0). -/
def caseIgnorableRanges : List (Nat × Nat) := [
  (39, 39), (46, 46), (58, 58), (94, 94), (96, 96), (168, 168), (173, 173), (175, 175),
  (180, 180), (183, 184), (688, 879), (884, 885), (890, 890), (900, 901), (903, 903),
  (1155, 1161), (1369, 1369), (1375, 1375), (1425, 1469), (1471, 1471), (1473, 1474),
  (1476, 1477), (1479, 1479), (1524, 1524), (1536, 1541), (1552, 1562), (1564, 1564),
  (1600, 1600), (1611, 1631), (1648, 1648), (1750, 1757), (1759, 1768), (1770, 1773),
  (1807, 1807), (1809, 1809), (1840, 1866), (1958, 1968), (2027, 2037), (2042, 2042),
  (2045, 2045), (2070, 2093), (2137, 2139), (2184, 2184), (2192, 2193), (2200, 2207),
  (2249, 2306), (2362, 2362), (2364, 2364), (2369, 2376), (2381, 2381), (2385, 2391),
  (2402, 2403), (2417, 2417), (2433, 2433), (2492, 2492), (2497, 2500), (2509, 2509),
  (2530, 2531), (2558, 2558), (2561, 2562), (2620, 2620), (2625, 2626), (2631, 2632),
  (2635, 2637), (2641, 2641), (2672, 2673), (2677, 2677), (2689, 2690), (2748, 2748),
  (2753, 2757), (2759, 2760), (2765, 2765), (2786, 2787), (2810, 2815), (2817, 2817),
  (2876, 2876), (2879, 2879), (2881, 2884), (2893, 2893), (2901, 2902), (2914, 2915),
  (2946, 2946), (3008, 3008), (3021, 3021), (3072, 3072), (3076, 3076), (3132, 3132),
  (3134, 3136), (3142, 3144), (3146, 3149), (3157, 3158), (3170, 3171), (3201, 3201),
  (3260, 3260), (3263, 3263), (3270, 3270), (3276, 3277), (3298, 3299), (3328, 3329),
  (3387, 3388), (3393, 3396), (3405, 3405), (3426, 3427), (3457, 3457), (3530, 3530),
  (3538, 3540), (3542, 3542), (3633, 3633), (3636, 3642), (3654, 3662), (3761, 3761),
  (3764, 3772), (3782, 3782), (3784, 3789), (3864, 3865), (3893, 3893), (3895, 3895),
  (3897, 3897), (3953, 3966), (3968, 3972), (3974, 3975), (3981, 3991), (3993, 4028),
  (4038, 4038), (4141, 4144), (4146, 4151), (4153, 4154), (4157, 4158), (4184, 4185),
  (4190, 4192), (4209, 4212), (4226, 4226), (4229, 4230), (4237, 4237), (4253, 4253),
  (4348, 4348), (4957, 4959), (5906, 5908), (5938, 5939), (5970, 5971), (6002, 6003),
  (6068, 6069), (6071, 6077), (6086, 6086), (6089, 6099), (6103, 6103), (6109, 6109),
  (6155, 6159), (6211, 6211), (6277, 6278), (6313, 6313), (6432, 6434), (6439, 6440),
  (6450, 6450), (6457, 6459), (6679, 6680), (6683, 6683), (6742, 6742), (6744, 6750),
  (6752, 6752), (6754, 6754), (6757, 6764), (6771, 6780), (6783, 6783), (6823, 6823),
  (6832, 6862), (6912, 6915), (6964, 6964), (6966, 6970), (6972, 6972), (6978, 6978),
  (7019, 7027), (7040, 7041), (7074, 7077), (7080, 7081), (7083, 7085), (7142, 7142),
  (7144, 7145), (7149, 7149), (7151, 7153), (7212, 7219), (7222, 7223), (7288, 7293),
  (7376, 7378), (7380, 7392), (7394, 7400), (7405, 7405), (7412, 7412), (7416, 7417),
  (7468, 7530), (7544, 7544), (7579, 7679), (8125, 8125), (8127, 8129), (8141, 8143),
  (8157, 8159), (8173, 8175), (8189, 8190), (8203, 8207), (8216, 8217), (8228, 8228),
  (8231, 8231), (8234, 8238), (8288, 8292), (8294, 8303), (8305, 8305), (8319, 8319),
  (8336, 8348), (8400, 8432), (11388, 11389), (11503, 11505), (11631, 11631), (11647, 11647),
  (11744, 11775), (11823, 11823), (12293, 12293), (12330, 12333), (12337, 12341), (12347, 12347),
  (12441, 12446), (12540, 12542), (40981, 40981), (42232, 42237), (42508, 42508), (42607, 42610),
  (42612, 42621), (42623, 42623), (42652, 42655), (42736, 42737), (42752, 42785), (42864, 42864),
  (42888, 42890), (42994, 42996), (43000, 43001), (43010, 43010), (43014, 43014), (43019, 43019),
  (43045, 43046), (43052, 43052), (43204, 43205), (43232, 43249), (43263, 43263), (43302, 43309),
  (43335, 43345), (43392, 43394), (43443, 43443), (43446, 43449), (43452, 43453), (43471, 43471),
  (43493, 43494), (43561, 43566), (43569, 43570), (43573, 43574), (43587, 43587), (43596, 43596),
  (43632, 43632), (43644, 43644), (43696, 43696), (43698, 43700), (43703, 43704), (43710, 43711),
  (43713, 43713), (43741, 43741), (43756, 43757), (43763, 43764), (43766, 43766), (43867, 43871),
  (43881, 43883), (44005, 44005), (44008, 44008), (44013, 44013), (64286, 64286), (64434, 64450),
  (65024, 65039), (65043, 65043), (65056, 65071), (65106, 65106), (65109, 65109), (65279, 65279),
  (65287, 65287), (65294, 65294), (65306, 65306), (65342, 65342), (65344, 65344), (65392, 65392),
  (65438, 65439), (65507, 65507), (65529, 65531), (66045, 66045), (66272, 66272), (66422, 66426),
  (67456, 67461), (67463, 67504), (67506, 67514), (68097, 68099), (68101, 68102), (68108, 68111),
  (68152, 68154), (68159, 68159), (68325, 68326), (68900, 68903), (69291, 69292), (69446, 69456),
  (69506, 69509), (69633, 69633), (69688, 69702), (69744, 69744), (69747, 69748), (69759, 69761),
  (69811, 69814), (69817, 69818), (69821, 69821), (69826, 69826), (69837, 69837), (69888, 69890),
  (69927, 69931), (69933, 69940), (70003, 70003), (70016, 70017), (70070, 70078), (70089, 70092),
  (70095, 70095), (70191, 70193), (70196, 70196), (70198, 70199), (70206, 70206), (70367, 70367),
  (70371, 70378), (70400, 70401), (70459, 70460), (70464, 70464), (70502, 70508), (70512, 70516),
  (70712, 70719), (70722, 70724), (70726, 70726), (70750, 70750), (70835, 70840), (70842, 70842),
  (70847, 70848), (70850, 70851), (71090, 71093), (71100, 71101), (71103, 71104), (71132, 71133),
  (71219, 71226), (71229, 71229), (71231, 71232), (71339, 71339), (71341, 71341), (71344, 71349),
  (71351, 71351), (71453, 71455), (71458, 71461), (71463, 71467), (71727, 71735), (71737, 71738),
  (71995, 71996), (71998, 71998), (72003, 72003), (72148, 72151), (72154, 72155), (72160, 72160),
  (72193, 72202), (72243, 72248), (72251, 72254), (72263, 72263), (72273, 72278), (72281, 72283),
  (72330, 72342), (72344, 72345), (72752, 72758), (72760, 72765), (72767, 72767), (72850, 72871),
  (72874, 72880), (72882, 72883), (72885, 72886), (73009, 73014), (73018, 73018), (73020, 73021),
  (73023, 73029), (73031, 73031), (73104, 73105), (73109, 73109), (73111, 73111), (73459, 73460),
  (78896, 78904), (92912, 92916), (92976, 92982), (92992, 92995), (94031, 94031), (94095, 94111),
  (94176, 94177), (94179, 94180), (110576, 110579), (110581, 110587), (110589, 110590),
  (113821, 113822), (113824, 113827), (118528, 118573), (118576, 118598), (119143, 119145),
  (119155, 119170), (119173, 119179), (119210, 119213), (119362, 119364), (121344, 121398),
  (121403, 121452), (121461, 121461), (121476, 121476), (121499, 121503), (121505, 121519),
  (122880, 122886), (122888, 122904), (122907, 122913), (122915, 122916), (122918, 122922),
  (123184, 123197), (123566, 123566), (123628, 123631), (125136, 125142), (125252, 125259),
  (127995, 127999), (917505, 917505), (917536, 917631), (917760, 917999)]

/-- Inclusive ranges of the code points with the Cased property that are not Case_Ignorable
(Unicode 14.0); the Final_Sigma scan skips a Case_Ignorable code point before it asks
whether it is cased. -/
def casedRanges : List (Nat × Nat) := [
  (65, 90), (97, 122), (170, 170), (181, 181), (186, 186), (192, 214), (216, 246), (248, 442),
  (444, 447), (452, 659), (661, 687), (880, 883), (886, 887), (891, 893), (895, 895), (902, 902),
  (904, 906), (908, 908), (910, 929), (931, 1013), (1015, 1153), (1162, 1327), (1329, 1366),
  (1376, 1416), (4256, 4293), (4295, 4295), (4301, 4301), (4304, 4346), (4349, 4351),
  (5024, 5109), (5112, 5117), (7296, 7304), (7312, 7354), (7357, 7359), (7424, 7467),
  (7531, 7543), (7545, 7578), (7680, 7957), (7960, 7965), (7968, 8005), (8008, 8013),
  (8016, 8023), (8025, 8025), (8027, 8027), (8029, 8029), (8031, 8061), (8064, 8116),
  (8118, 8124), (8126, 8126), (8130, 8132), (8134, 8140), (8144, 8147), (8150, 8155),
  (8160, 8172), (8178, 8180), (8182, 8188), (8450, 8450), (8455, 8455), (8458, 8467),
  (8469, 8469), (8473, 8477), (8484, 8484), (8486, 8486), (8488, 8488), (8490, 8493),
  (8495, 8500), (8505, 8505), (8508, 8511), (8517, 8521), (8526, 8526), (8544, 8575),
  (8579, 8580), (9398, 9449), (11264, 11387), (11390, 11492), (11499, 11502), (11506, 11507),
  (11520, 11557), (11559, 11559), (11565, 11565), (42560, 42605), (42624, 42651), (42786, 42863),
  (42865, 42887), (42891, 42894), (42896, 42954), (42960, 42961), (42963, 42963), (42965, 42969),
  (42997, 42998), (43002, 43002), (43824, 43866), (43872, 43880), (43888, 43967), (64256, 64262),
  (64275, 64279), (65313, 65338), (65345, 65370), (66560, 66639), (66736, 66771), (66776, 66811),
  (66928, 66938), (66940, 66954), (66956, 66962), (66964, 66965), (66967, 66977), (66979, 66993),
  (66995, 67001), (67003, 67004), (68736, 68786), (68800, 68850), (71840, 71903), (93760, 93823),
  (119808, 119892), (119894, 119964), (119966, 119967), (119970, 119970), (119973, 119974),
  (119977, 119980), (119982, 119993), (119995, 119995), (119997, 120003), (120005, 120069),
  (120071, 120074), (120077, 120084), (120086, 120092), (120094, 120121), (120123, 120126),
  (120128, 120132), (120134, 120134), (120138, 120144), (120146, 120485), (120488, 120512),
  (120514, 120538), (120540, 120570), (120572, 120596), (120598, 120628), (120630, 120654),
  (120656, 120686), (120688, 120712), (120714, 120744), (120746, 120770), (120772, 120779),
  (122624, 122633), (122635, 122654), (125184, 125251), (127280, 127305), (127312, 127337),
  (127344, 127369)]

/-! ## String primitives of the host language

`String.prototype.toUpperCase`, `toLowerCase` and `includes` are built into the language
that `server.js` is written in. They are modelled on sequences of Unicode scalar values
(Lean strings) from the case tables above. -/

/-- Image of the code point `c` under the run of a table that contains it. The runs of a
table are sorted by their first code point, so the scan stops at the first run that starts
beyond `c`. -/
def runImage : List (Nat × Nat × Nat × Nat) → Nat → Option Nat
  | [], _ => none
  | (first, last, stride, image) :: rest, c =>
    if c < first then none
    else if c ≤ last ∧ (c - first) % stride = 0 then some (image + (c - first))
    else runImage rest c

/-- Entry of the code point `c` in a table of expansions. The keys of a table are sorted, so
the scan stops at the first key beyond `c`. -/
def specialImage : List (Nat × List Nat) → Nat → Option (List Nat)
  | [], _ => none
  | (key, image) :: rest, c =>
    if c < key then none
    else if c = key then some image
    else specialImage rest c

/-- Full upper-case mapping of one code point: a run image, a special expansion, or the
code point itself when it has no mapping. -/
def upperCodePoint (c : Nat) : List Nat :=
  match runImage upperRuns c with
  | some u => [u]
  | none =>
    match specialImage upperSpecial c with
    | some us => us
    | none => [c]

def upperChar (c : Char) : List Char := (upperCodePoint c.toNat).map Char.ofNat

/-- The method `String.prototype.toUpperCase`: every code point is replaced by its full
upper-case mapping; the mapping does not depend on the context or on the locale. -/
def toUpperCase (s : String) : String := String.mk (s.data.flatMap upperChar)

/-- Membership of a code point in a list of inclusive ranges. -/
def inRanges (ranges : List (Nat × Nat)) (c : Nat) : Bool :=
  ranges.any fun r => r.1 ≤ c && c ≤ r.2

/-- Scan used by the Final_Sigma condition: skip the Case_Ignorable code points, then ask
whether the next one is cased. -/
def reachesCased : List Char → Bool
  | [] => false
  | c :: rest =>
    if inRanges caseIgnorableRanges c.toNat then reachesCased rest
    else inRanges casedRanges c.toNat

/-- Full lower-case mapping of one code point, outside of any context. -/
def lowerCodePoint (c : Nat) : List Nat :=
  match runImage lowerRuns c with
  | some u => [u]
  | none =>
    match specialImage lowerSpecial c with
    | some us => us
    | none => [c]

def lowerChar (c : Char) : List Char := (lowerCodePoint c.toNat).map Char.ofNat

/-- Lower-casing of the code points `todo`, where `before` holds the code points already
passed, nearest first. U+03A3 becomes U+03C2 under the Final_Sigma condition (a cased letter
before it, none after it) and U+03C3 otherwise. -/
def lowerFrom (before : List Char) : List Char → List Char
  | [] => []
  | c :: todo =>
    (if c.toNat = 0x3A3 then
      [if reachesCased before && !reachesCased todo then Char.ofNat 0x3C2 else Char.ofNat 0x3C3]
    else lowerChar c) ++ lowerFrom (c :: before) todo

/-- The method `String.prototype.toLowerCase`. -/
def toLowerCase (s : String) : String := String.mk (lowerFrom [] s.data)

/-- Does `pattern` occur as a contiguous block of `text`. -/
def includesChars (pattern : List Char) : List Char → Bool
  | [] => pattern.isEmpty
  | c :: rest => pattern.isPrefixOf (c :: rest) || includesChars pattern rest

/-- The method `String.prototype.includes` with one argument. -/
def includes (s searchString : String) : Bool := includesChars searchString.data s.data

/-! ## Dynamically typed values -/

/-- A value of the host language, as far as the endpoint meets them: the values of a parsed
JSON document and the objects and functions inherited from `Object.prototype`. An `object`
carries a label only. -/
inductive JsValue where
  | undefined
  | null
  | boolean (b : Bool)
  | number (n : Int)
  | string (s : String)
  | object (label : String)
  deriving DecidableEq, Repr

/-- Conversion to a boolean, as done by `&&`, `||`, `? :` and `filter`. -/
def truthy : JsValue → Bool
  | .undefined => false
  | .null => false
  | .boolean b => b
  | .number n => n != 0
  | .string s => s != ""
  | .object _ => true

/-- The operator `a || b`. -/
def jsOr (a b : JsValue) : JsValue := if truthy a then a else b

/-! ## The classifier -/

/-- The function `mapCrimeType` of `server.js`, on two strings. -/
def mapCrimeType (primaryType description : String) : String :=
  let type := toUpperCase primaryType
  let desc := toUpperCase (if description = "" then "" else description)
  if type = "SEX OFFENSE" ∨ type = "CRIM SEXUAL ASSAULT" ∨ type = "STALKING"
      ∨ type = "CRIMINAL SEXUAL ASSAULT"
      ∨ includes desc "GENDER IDENTITY" = true ∨ includes desc "SEXUAL ORIENTATION" = true then
    "HATE_CRIME"
  else if type = "THEFT" ∨ type = "BURGLARY" ∨ type = "MOTOR VEHICLE THEFT" then "THEFT"
  else if type = "BATTERY" ∨ type = "AGGRAVATED BATTERY" then "BATTERY"
  else if type = "ASSAULT" ∨ type = "AGGRAVATED ASSAULT" then "ASSAULT"
  else if type = "ROBBERY" ∨ type = "ARMED ROBBERY" then "ROBBERY"
  else if includes type "THEFT" then "THEFT"
  else if includes type "BATTERY" then "BATTERY"
  else if includes type "ASSAULT" then "ASSAULT"
  else if includes type "ROBBERY" then "ROBBERY"
  else "THEFT"

/-- The operations of the callback of `map` that can throw a `TypeError`: the two method
calls of `mapCrimeType`, and the conversion of an object to a primitive value inside
`parseFloat(d.latitude)`, `parseFloat(d.longitude)` and `new Date(d.date)`. -/
inductive ThrowSite where
  | primaryTypeToUpperCase
  | descriptionToUpperCase
  | latitudeParseFloat
  | longitudeParseFloat
  | dateConstructor
  deriving DecidableEq, Repr

/-- A call of `mapCrimeType` on arbitrary values. `primaryType.toUpperCase()` throws unless
`primaryType` is a string, then `(description || "").toUpperCase()` throws unless the
operand is a string. -/
def mapCrimeTypeCall (primaryType description : JsValue) : Except ThrowSite String :=
  match primaryType with
  | .string t =>
    match jsOr description (.string "") with
    | .string d => .ok (mapCrimeType t d)
    | _ => .error .descriptionToUpperCase
  | _ => .error .primaryTypeToUpperCase

/-- Own properties of the object literal `severityMap`. -/
def severityMap : List (String × Int) :=
  [("HATE_CRIME", 10), ("ROBBERY", 8), ("ASSAULT", 7), ("BATTERY", 5), ("THEFT", 3)]

/-- Names of the properties that an object literal inherits from `Object.prototype`. Each
of them holds a function or an object. -/
def objectPrototypeKeys : List String :=
  ["constructor", "__defineGetter__", "__defineSetter__", "hasOwnProperty",
   "__lookupGetter__", "__lookupSetter__", "isPrototypeOf", "propertyIsEnumerable",
   "toString", "valueOf", "__proto__", "toLocaleString"]

/-- The property read `severityMap[type]`: an own property, else an inherited one, else
`undefined`. -/
def severityMapGet (type : String) : JsValue :=
  match severityMap.lookup type with
  | some n => .number n
  | none =>
    if type ∈ objectPrototypeKeys then .object ("Object.prototype." ++ type) else .undefined

/-- The function `getCrimeSeverity` of `server.js`. -/
def getCrimeSeverity (type : String) : JsValue := jsOr (severityMapGet type) (.number 3)

/-! ## The crime data endpoint -/

/-- One record of the upstream response. An absent field reads as `undefined`. -/
structure RawIncident where
  latitude : JsValue
  longitude : JsValue
  primary_type : JsValue
  description : JsValue
  date : JsValue
  block : JsValue
  arrest : JsValue
  deriving DecidableEq, Repr

/-- What the endpoint takes from its host: `parseFloat` into the floating point numbers `F`,
`new Date(v).toLocaleDateString()`, the wording of the message of a `TypeError`, and which
objects cannot be converted to a primitive value. `parseFloat` and `new Date` convert an
object argument first, and the conversion throws a `TypeError` when neither `toString` nor
`valueOf` of the object yields a primitive, as for the parsed JSON object with an own
property `toString`; `objectThrows` tells so from the label of the object. -/
structure Host (F : Type) where
  parseFloat : JsValue → F
  toLocaleDateString : JsValue → String
  typeErrorMessage : ThrowSite → String
  objectThrows : String → Bool

/-- Does the conversion of a value to a primitive throw: never for a primitive value, and
for an object as the host tells. -/
def conversionThrows {F : Type} (host : Host F) : JsValue → Bool
  | .object label => host.objectThrows label
  | _ => false

/-- One element of `points`. -/
structure NormalizedPoint (F : Type) where
  lat : F
  lng : F
  type : String
  desc : JsValue
  date : String
  rawDate : JsValue
  rawType : JsValue
  severity : JsValue
  block : JsValue
  arrestMade : Bool

/-- The object `crimeStats`: its own properties in insertion order. Its keys are results of
`mapCrimeType`, none of which is the name of an inherited property. -/
abbrev CrimeStats := List (String × Nat)

/-- The assignment `crimeStats[key] = value`. -/
def setStat : CrimeStats → String → Nat → CrimeStats
  | [], key, value => [(key, value)]
  | (k, v) :: rest, key, value =>
    if k = key then (k, value) :: rest else (k, v) :: setStat rest key value

/-- The statement `crimeStats[mappedType] = (crimeStats[mappedType] || 0) + 1`. -/
def countType (crimeStats : CrimeStats) (mappedType : String) : CrimeStats :=
  setStat crimeStats mappedType ((crimeStats.lookup mappedType).getD 0 + 1)

/-- The predicate of `filter`: `d.latitude && d.longitude`. -/
def hasCoordinates (d : RawIncident) : Bool := truthy d.latitude && truthy d.longitude

/-- The object literal returned by the callback of `map`, when the evaluation of its fields
does not throw. -/
def makePoint {F : Type} (host : Host F) (d : RawIncident) (mappedType : String) :
    NormalizedPoint F where
  lat := host.parseFloat d.latitude
  lng := host.parseFloat d.longitude
  type := mappedType
  desc := jsOr (jsOr d.description d.primary_type) (.string "")
  date := if truthy d.date then host.toLocaleDateString d.date else ""
  rawDate := d.date
  rawType := d.primary_type
  severity := getCrimeSeverity mappedType
  block := jsOr d.block (.string "Unknown location")
  arrestMade := decide (d.arrest = .string "true") || decide (d.arrest = .boolean true)

/-- The callback of `map` on one record, with `crimeStats` threaded through: the call of
`mapCrimeType`, the count, then the object literal, whose fields `lat`, `lng` and `date` are
evaluated in this order and throw on an object that cannot be converted. The date is
converted only when it is truthy. -/
def mapRecord {F : Type} (host : Host F) (crimeStats : CrimeStats) (d : RawIncident) :
    Except ThrowSite (CrimeStats × NormalizedPoint F) :=
  match mapCrimeTypeCall (jsOr d.primary_type (.string "")) (jsOr d.description (.string "")) with
  | .error e => .error e
  | .ok mappedType =>
    if conversionThrows host d.latitude then .error .latitudeParseFloat
    else if conversionThrows host d.longitude then .error .longitudeParseFloat
    else if truthy d.date && conversionThrows host d.date then .error .dateConstructor
    else .ok (countType crimeStats mappedType, makePoint host d mappedType)

/-- The method `map` over the filtered records, left to right; an exception ends it. -/
def mapRecords {F : Type} (host : Host F) :
    CrimeStats → List RawIncident → Except ThrowSite (CrimeStats × List (NormalizedPoint F))
  | crimeStats, [] => .ok (crimeStats, [])
  | crimeStats, d :: rest =>
    match mapRecord host crimeStats d with
    | .error e => .error e
    | .ok (crimeStats1, point) =>
      match mapRecords host crimeStats1 rest with
      | .error e => .error e
      | .ok (crimeStats2, points) => .ok (crimeStats2, point :: points)

/-- Body of the success response. -/
structure AggregateResponse (F : Type) where
  points : List (NormalizedPoint F)
  stats : CrimeStats
  totalRecords : Nat
  mappedRecords : Nat

/-- What the handler sends: `res.json(...)` with status 200, or
`res.status(500).json(...)` with the fields `error` and `message`. -/
inductive Response (F : Type) where
  | success (status : Nat) (body : AggregateResponse F)
  | failure (status : Nat) (error : String) (message : String)

/-- The handler of `GET /api/crime`, given the outcome of the one outbound request: the
message of the error it failed with, or the parsed array of records. -/
def crimeHandler {F : Type} (host : Host F) (upstream : Except String (List RawIncident)) :
    Response F :=
  match upstream with
  | .error message => .failure 500 "Failed to fetch crime data" message
  | .ok data =>
    match mapRecords host [] (data.filter hasCoordinates) with
    | .ok (crimeStats, points) =>
      .success 200
        { points := points, stats := crimeStats,
          totalRecords := data.length, mappedRecords := points.length }
    | .error site => .failure 500 "Failed to fetch crime data" (host.typeErrorMessage site)


/-! ## Vocabulary of the specification -/

/-- The closed enumeration of categories. -/
def categories : List String := ["HATE_CRIME", "THEFT", "BATTERY", "ASSAULT", "ROBBERY"]

/-- Type names that signal a hate crime on their own. -/
def hateCrimeTypes : List String :=
  ["SEX OFFENSE", "CRIM SEXUAL ASSAULT", "STALKING", "CRIMINAL SEXUAL ASSAULT"]

/-- The hate-crime signal on an upper-cased type and an upper-cased description. -/
def hateCrimeSignal (type desc : String) : Prop :=
  type ∈ hateCrimeTypes ∨ includes desc "GENDER IDENTITY" = true
    ∨ includes desc "SEXUAL ORIENTATION" = true

instance (type desc : String) : Decidable (hateCrimeSignal type desc) := by
  unfold hateCrimeSignal; infer_instance

/-- Type names of the exact-match rules. -/
def exactMatchNames : List String :=
  ["THEFT", "BURGLARY", "MOTOR VEHICLE THEFT", "BATTERY", "AGGRAVATED BATTERY", "ASSAULT",
   "AGGRAVATED ASSAULT", "ROBBERY", "ARMED ROBBERY"]

/-- Tokens of the substring rules, in the order of the specification; each token is the
name of its category. -/
def fallbackTokens : List String := ["THEFT", "BATTERY", "ASSAULT", "ROBBERY"]

/-- A classification rule: a predicate on the upper-cased type and description, and the
category it assigns. -/
structure Rule where
  applies : String → String → Bool
  category : String

/-- The ordered rule list of the specification. -/
def crimeRules : List Rule :=
  [ { applies := fun type desc => decide (type ∈ hateCrimeTypes)
        || includes desc "GENDER IDENTITY" || includes desc "SEXUAL ORIENTATION",
      category := "HATE_CRIME" },
    { applies := fun type _ => decide (type ∈ ["THEFT", "BURGLARY", "MOTOR VEHICLE THEFT"]),
      category := "THEFT" },
    { applies := fun type _ => decide (type ∈ ["BATTERY", "AGGRAVATED BATTERY"]),
      category := "BATTERY" },
    { applies := fun type _ => decide (type ∈ ["ASSAULT", "AGGRAVATED ASSAULT"]),
      category := "ASSAULT" },
    { applies := fun type _ => decide (type ∈ ["ROBBERY", "ARMED ROBBERY"]),
      category := "ROBBERY" },
    { applies := fun type _ => includes type "THEFT", category := "THEFT" },
    { applies := fun type _ => includes type "BATTERY", category := "BATTERY" },
    { applies := fun type _ => includes type "ASSAULT", category := "ASSAULT" },
    { applies := fun type _ => includes type "ROBBERY", category := "ROBBERY" } ]

/-- First-match-wins evaluation of a rule list. -/
def firstMatch : List Rule → String → String → Option String
  | [], _, _ => none
  | rule :: rest, type, desc =>
    if rule.applies type desc then some rule.category else firstMatch rest type desc

/-- Reference classifier of the specification: the first matching rule on the upper-cased
inputs, and THEFT when no rule matches. -/
def mapCrimeTypeByRules (primaryType description : String) : String :=
  (firstMatch crimeRules (toUpperCase primaryType) (toUpperCase description)).getD "THEFT"

/-- The first of the fallback tokens that a type contains. -/
def firstToken (type : String) : Option String :=
  fallbackTokens.find? fun token => includes type token

/-- The sum of all values of `stats`. -/
def statsTotal (stats : CrimeStats) : Nat := (stats.map Prod.snd).sum

/-- An optional, nullable string: the type that the specification gives to the fields of a
raw incident. -/
def optionalString : JsValue → Prop
  | .undefined => True
  | .null => True
  | .string _ => True
  | _ => False

/-- A raw incident as the specification types it: each field is absent, null or a
string. -/
def RawIncident.WellTyped (d : RawIncident) : Prop :=
  optionalString d.latitude ∧ optionalString d.longitude ∧ optionalString d.primary_type
    ∧ optionalString d.description ∧ optionalString d.date ∧ optionalString d.block
    ∧ optionalString d.arrest

/-- The point `p` is what the callback of `map` returns on the record `d`. -/
def IsPointOf {F : Type} (host : Host F) (d : RawIncident) (p : NormalizedPoint F) : Prop :=
  ∃ crimeStats crimeStats1, mapRecord host crimeStats d = .ok (crimeStats1, p)

/-- A host for the examples: a float is kept as the value it is parsed from, a date as its
text, and the object labelled `own toString` cannot be converted to a primitive value. -/
def exampleHost : Host JsValue where
  parseFloat := fun v => v
  toLocaleDateString := fun v =>
    match v with
    | .string s => s
    | _ => "Invalid Date"
  typeErrorMessage := fun site =>
    match site with
    | .primaryTypeToUpperCase => "primaryType.toUpperCase is not a function"
    | .descriptionToUpperCase => "toUpperCase is not a function"
    | _ => "Cannot convert object to primitive value"
  objectThrows := fun label => label == "own toString"

/-- The record of the end-to-end example of the specification. -/
def exampleRecord : RawIncident where
  latitude := .string "41.8"
  longitude := .string "-87.6"
  primary_type := .string "ROBBERY"
  description := .string "ARMED"
  date := .string "2024-11-05T00:00:00.000"
  block := .string "100 S STATE ST"
  arrest := .string "true"

/-- The example record without its field `block`. -/
def exampleRecordNoBlock : RawIncident := { exampleRecord with block := .undefined }

/-- A record without coordinates. -/
def exampleRecordNoCoordinates : RawIncident :=
  { exampleRecord with latitude := .undefined, longitude := .null }

/-- The example record with an object that cannot be converted as latitude. -/
def exampleRecordObjectLatitude : RawIncident :=
  { exampleRecord with latitude := .object "own toString" }

/-! ## Checks on the case tables -/

/-- The code point is a Unicode scalar value. -/
def isScalar (c : Nat) : Bool := c < 0xD800 || (0xDFFF < c && c < 0x110000)

/-- The images of the run `r` lie outside the run `q`: the two intervals are apart, or the
images of `r` and the members of `q` differ in parity. -/
def runAvoidsRun (r q : Nat × Nat × Nat × Nat) : Bool :=
  Nat.blt (r.2.2.2 + (r.2.1 - r.1)) q.1 || Nat.blt q.2.1 r.2.2.2
    || (Nat.beq q.2.2.1 2 && (Nat.beq r.2.2.1 2 || Nat.beq r.1 r.2.1)
        && !Nat.beq (r.2.2.2 % 2) (q.1 % 2))

/-- The images of the run `r` differ from the code point `k`. -/
def runAvoidsKey (r : Nat × Nat × Nat × Nat) (k : Nat) : Bool :=
  Nat.blt (r.2.2.2 + (r.2.1 - r.1)) k || Nat.blt k r.2.2.2
    || ((Nat.beq r.2.2.1 2 || Nat.beq r.1 r.2.1) && !Nat.beq (r.2.2.2 % 2) (k % 2))

/-- The images of the run `r` are scalar values. -/
def runImagesScalar (r : Nat × Nat × Nat × Nat) : Bool :=
  Nat.blt (r.2.2.2 + (r.2.1 - r.1)) 0xD800
    || (Nat.blt 0xDFFF r.2.2.2 && Nat.blt (r.2.2.2 + (r.2.1 - r.1)) 0x110000)

/-- The upper-case tables map every code point to scalar values that have no upper-case
mapping of their own. -/
def upperTablesClosed : Bool :=
  (upperRuns.all fun r =>
      runImagesScalar r && upperRuns.all (runAvoidsRun r)
        && upperSpecial.all fun e => runAvoidsKey r e.1)
    && upperSpecial.all fun e =>
      e.2.all fun u =>
        isScalar u && (runImage upperRuns u).isNone && (specialImage upperSpecial u).isNone

/-- The runs of a table follow one another: each run ends before the next one starts. -/
def runsSorted : List (Nat × Nat × Nat × Nat) → Bool
  | [] => true
  | [_] => true
  | r :: q :: rest => Nat.ble r.1 r.2.1 && Nat.blt r.2.1 q.1 && runsSorted (q :: rest)

/-- The keys of a table of expansions increase. -/
def keysSorted : List (Nat × List Nat) → Bool
  | [] => true
  | [_] => true
  | e :: f :: rest => Nat.blt e.1 f.1 && keysSorted (f :: rest)

/-- On the ASCII code points, lower-casing first does not change the upper-case mapping. -/
def asciiCaseChecked : Bool :=
  (List.range 128).all fun n =>
    (lowerCodePoint n).all isScalar
      && (lowerCodePoint n).flatMap upperCodePoint == upperCodePoint n

/-- Every character of the string is an ASCII character. -/
def isAscii (s : String) : Prop := ∀ c ∈ s.data, c.toNat < 128

instance (s : String) : Decidable (isAscii s) := by
  unfold isAscii; infer_instance

/-- The type STALKING written with the Kelvin sign U+212A in the place of the letter K. -/
def kelvinStalking : String := "STAL" ++ String.singleton (Char.ofNat 0x212A) ++ "ING"

/-! ## Vocabulary of the later properties -/

/-- The HTTP status of a response. -/
def Response.status {F : Type} : Response F → Nat
  | .success status _ => status
  | .failure status _ _ => status

/-- The names of the fields of the object that the handler passes to `res.json`. -/
def Response.fields {F : Type} : Response F → List String
  | .success _ _ => ["points", "stats", "totalRecords", "mappedRecords"]
  | .failure _ _ _ => ["error", "message"]

/-- The read `stats[c]`, taken as 0 when `stats` has no key `c`. -/
def statsGet (stats : CrimeStats) (c : String) : Nat := (stats.lookup c).getD 0

/-- The keys of `stats`. -/
def statsKeys (stats : CrimeStats) : List String := stats.map Prod.fst

/-- The classifier of the specification without its four substring rules: the hate-crime
rule, the exact-match rules, and the default THEFT. -/
def mapCrimeTypeExactOnly (primaryType description : String) : String :=
  let type := toUpperCase primaryType
  let desc := toUpperCase description
  if hateCrimeSignal type desc then "HATE_CRIME"
  else if type ∈ ["THEFT", "BURGLARY", "MOTOR VEHICLE THEFT"] then "THEFT"
  else if type ∈ ["BATTERY", "AGGRAVATED BATTERY"] then "BATTERY"
  else if type ∈ ["ASSAULT", "AGGRAVATED ASSAULT"] then "ASSAULT"
  else if type ∈ ["ROBBERY", "ARMED ROBBERY"] then "ROBBERY"
  else "THEFT"

/-- The classifier of the specification without its exact-match rules: the hate-crime rule,
the four substring rules in the order THEFT, BATTERY, ASSAULT, ROBBERY, and the default
THEFT. -/
def mapCrimeTypeSubstringOnly (primaryType description : String) : String :=
  let type := toUpperCase primaryType
  let desc := toUpperCase description
  if hateCrimeSignal type desc then "HATE_CRIME"
  else if includes type "THEFT" then "THEFT"
  else if includes type "BATTERY" then "BATTERY"
  else if includes type "ASSAULT" then "ASSAULT"
  else if includes type "ROBBERY" then "ROBBERY"
  else "THEFT"

/-- The inputs on which the substring rules for BATTERY, ASSAULT and ROBBERY decide: no
hate-crime signal, no exact-match name, and a type that contains one of the three tokens
but not THEFT. -/
def substringRuleDecides (type desc : String) : Prop :=
  ¬ hateCrimeSignal type desc ∧ type ∉ exactMatchNames ∧ includes type "THEFT" = false
    ∧ (includes type "BATTERY" = true ∨ includes type "ASSAULT" = true
        ∨ includes type "ROBBERY" = true)

/-- The example record with neither a description nor a primary type. -/
def exampleRecordNoText : RawIncident :=
  { exampleRecord with description := .undefined, primary_type := .undefined }

/-- The example record with an empty description. -/
def exampleRecordEmptyDescription : RawIncident :=
  { exampleRecord with description := .string "" }

instance (v : JsValue) : Decidable (optionalString v) := by
  cases v <;> simp only [optionalString] <;> infer_instance

instance (d : RawIncident) : Decidable d.WellTyped := by
  unfold RawIncident.WellTyped; infer_instance

/-! ## Lemmas on the classifier -/

/-- The search of `includes` finds exactly the contiguous sublists. -/
theorem includesChars_iff (pattern text : List Char) :
    includesChars pattern text = true ↔ pattern <:+: text := by
  induction text with
  | nil => simp only [includesChars, List.isEmpty_iff, List.infix_nil]
  | cons c rest ih =>
    simp only [includesChars, Bool.or_eq_true, List.isPrefixOf_iff_prefix, ih,
      List.infix_cons_iff]

/-- A string includes another one exactly when it is a text, then the other one, then a
text. -/
theorem includes_iff (s searchString : String) :
    includes s searchString = true ↔ ∃ before after : String,
      s = before ++ searchString ++ after := by
  simp only [includes, includesChars_iff]
  constructor
  · rintro ⟨a, b, h⟩
    exact ⟨String.mk a, String.mk b, String.ext (by simp only [String.data_append, h])⟩
  · rintro ⟨a, b, h⟩
    exact ⟨a.data, b.data, by rw [h]; simp only [String.data_append]⟩

theorem orEmpty_eq (d : String) : (if d = "" then "" else d) = d := by
  split_ifs with h
  · exact h.symm
  · rfl

theorem jsOr_string (d : String) : jsOr (.string d) (.string "") = .string d := by
  by_cases h : d = ""
  · subst h; simp only [jsOr, ite_self]
  · have : truthy (.string d) = true := by
      simp only [truthy, bne_iff_ne, ne_eq, h, not_false_eq_true]
    simp only [jsOr, this, if_true]

/-- Case analysis along the ladder of `mapCrimeType`: a property holds of the result when it
holds of the value returned on each rung, under the conditions that lead to that rung. -/
theorem mapCrimeType_cases (P : String → Prop) (t d : String)
    (hHate : hateCrimeSignal (toUpperCase t) (toUpperCase d) → P "HATE_CRIME")
    (hTheft : ¬ hateCrimeSignal (toUpperCase t) (toUpperCase d) →
      toUpperCase t ∈ ["THEFT", "BURGLARY", "MOTOR VEHICLE THEFT"] → P "THEFT")
    (hBattery : ¬ hateCrimeSignal (toUpperCase t) (toUpperCase d) →
      toUpperCase t ∉ ["THEFT", "BURGLARY", "MOTOR VEHICLE THEFT"] →
      toUpperCase t ∈ ["BATTERY", "AGGRAVATED BATTERY"] → P "BATTERY")
    (hAssault : ¬ hateCrimeSignal (toUpperCase t) (toUpperCase d) →
      toUpperCase t ∉ ["THEFT", "BURGLARY", "MOTOR VEHICLE THEFT"] →
      toUpperCase t ∉ ["BATTERY", "AGGRAVATED BATTERY"] →
      toUpperCase t ∈ ["ASSAULT", "AGGRAVATED ASSAULT"] → P "ASSAULT")
    (hRobbery : ¬ hateCrimeSignal (toUpperCase t) (toUpperCase d) →
      toUpperCase t ∉ ["THEFT", "BURGLARY", "MOTOR VEHICLE THEFT"] →
      toUpperCase t ∉ ["BATTERY", "AGGRAVATED BATTERY"] →
      toUpperCase t ∉ ["ASSAULT", "AGGRAVATED ASSAULT"] →
      toUpperCase t ∈ ["ROBBERY", "ARMED ROBBERY"] → P "ROBBERY")
    (hSubTheft : ¬ hateCrimeSignal (toUpperCase t) (toUpperCase d) →
      toUpperCase t ∉ exactMatchNames →
      includes (toUpperCase t) "THEFT" = true → P "THEFT")
    (hSubBattery : ¬ hateCrimeSignal (toUpperCase t) (toUpperCase d) →
      toUpperCase t ∉ exactMatchNames →
      includes (toUpperCase t) "THEFT" = false →
      includes (toUpperCase t) "BATTERY" = true → P "BATTERY")
    (hSubAssault : ¬ hateCrimeSignal (toUpperCase t) (toUpperCase d) →
      toUpperCase t ∉ exactMatchNames →
      includes (toUpperCase t) "THEFT" = false →
      includes (toUpperCase t) "BATTERY" = false →
      includes (toUpperCase t) "ASSAULT" = true → P "ASSAULT")
    (hSubRobbery : ¬ hateCrimeSignal (toUpperCase t) (toUpperCase d) →
      toUpperCase t ∉ exactMatchNames →
      includes (toUpperCase t) "THEFT" = false →
      includes (toUpperCase t) "BATTERY" = false →
      includes (toUpperCase t) "ASSAULT" = false →
      includes (toUpperCase t) "ROBBERY" = true → P "ROBBERY")
    (hDefault : ¬ hateCrimeSignal (toUpperCase t) (toUpperCase d) →
      toUpperCase t ∉ exactMatchNames →
      includes (toUpperCase t) "THEFT" = false →
      includes (toUpperCase t) "BATTERY" = false →
      includes (toUpperCase t) "ASSAULT" = false →
      includes (toUpperCase t) "ROBBERY" = false → P "THEFT") :
    P (mapCrimeType t d) := by
  unfold mapCrimeType
  rw [orEmpty_eq]
  revert hHate hTheft hBattery hAssault hRobbery hSubTheft hSubBattery hSubAssault
    hSubRobbery hDefault
  generalize toUpperCase t = T
  generalize toUpperCase d = D
  simp only [hateCrimeSignal, hateCrimeTypes, exactMatchNames, List.mem_cons,
    List.mem_singleton, List.not_mem_nil, or_false, or_assoc, not_or, and_imp,
    Bool.not_eq_true]
  intro hHate hTheft hBattery hAssault hRobbery hSubTheft hSubBattery hSubAssault
    hSubRobbery hDefault
  by_cases h1 : T = "SEX OFFENSE" ∨ T = "CRIM SEXUAL ASSAULT" ∨ T = "STALKING"
      ∨ T = "CRIMINAL SEXUAL ASSAULT"
      ∨ includes D "GENDER IDENTITY" = true ∨ includes D "SEXUAL ORIENTATION" = true
  · rw [if_pos h1]; exact hHate h1
  rw [if_neg h1]
  simp only [not_or, Bool.not_eq_true] at h1
  obtain ⟨a1, a2, a3, a4, a5, a6⟩ := h1
  by_cases h2 : T = "THEFT" ∨ T = "BURGLARY" ∨ T = "MOTOR VEHICLE THEFT"
  · rw [if_pos h2]; exact hTheft a1 a2 a3 a4 a5 a6 h2
  rw [if_neg h2]
  simp only [not_or] at h2
  obtain ⟨b1, b2, b3⟩ := h2
  by_cases h3 : T = "BATTERY" ∨ T = "AGGRAVATED BATTERY"
  · rw [if_pos h3]; exact hBattery a1 a2 a3 a4 a5 a6 b1 b2 b3 h3
  rw [if_neg h3]
  simp only [not_or] at h3
  obtain ⟨c1, c2⟩ := h3
  by_cases h4 : T = "ASSAULT" ∨ T = "AGGRAVATED ASSAULT"
  · rw [if_pos h4]; exact hAssault a1 a2 a3 a4 a5 a6 b1 b2 b3 c1 c2 h4
  rw [if_neg h4]
  simp only [not_or] at h4
  obtain ⟨d1, d2⟩ := h4
  by_cases h5 : T = "ROBBERY" ∨ T = "ARMED ROBBERY"
  · rw [if_pos h5]; exact hRobbery a1 a2 a3 a4 a5 a6 b1 b2 b3 c1 c2 d1 d2 h5
  rw [if_neg h5]
  simp only [not_or] at h5
  obtain ⟨e1, e2⟩ := h5
  by_cases h6 : includes T "THEFT" = true
  · rw [if_pos h6]; exact hSubTheft a1 a2 a3 a4 a5 a6 b1 b2 b3 c1 c2 d1 d2 e1 e2 h6
  rw [if_neg h6]
  simp only [Bool.not_eq_true] at h6
  by_cases h7 : includes T "BATTERY" = true
  · rw [if_pos h7]; exact hSubBattery a1 a2 a3 a4 a5 a6 b1 b2 b3 c1 c2 d1 d2 e1 e2 h6 h7
  rw [if_neg h7]
  simp only [Bool.not_eq_true] at h7
  by_cases h8 : includes T "ASSAULT" = true
  · rw [if_pos h8]; exact hSubAssault a1 a2 a3 a4 a5 a6 b1 b2 b3 c1 c2 d1 d2 e1 e2 h6 h7 h8
  rw [if_neg h8]
  simp only [Bool.not_eq_true] at h8
  by_cases h9 : includes T "ROBBERY" = true
  · rw [if_pos h9]
    exact hSubRobbery a1 a2 a3 a4 a5 a6 b1 b2 b3 c1 c2 d1 d2 e1 e2 h6 h7 h8 h9
  rw [if_neg h9]
  simp only [Bool.not_eq_true] at h9
  exact hDefault a1 a2 a3 a4 a5 a6 b1 b2 b3 c1 c2 d1 d2 e1 e2 h6 h7 h8 h9

theorem mem_exactMatchNames (type : String) :
    type ∈ exactMatchNames ↔
      type ∈ ["THEFT", "BURGLARY", "MOTOR VEHICLE THEFT"]
        ∨ type ∈ ["BATTERY", "AGGRAVATED BATTERY"]
        ∨ type ∈ ["ASSAULT", "AGGRAVATED ASSAULT"]
        ∨ type ∈ ["ROBBERY", "ARMED ROBBERY"] := by
  simp only [exactMatchNames, List.mem_cons, List.mem_singleton, List.not_mem_nil, or_false,
    or_assoc]

theorem firstToken_theft (type : String) (h1 : includes type "THEFT" = true) :
    firstToken type = some "THEFT" := by
  simp only [firstToken, fallbackTokens, List.find?_cons, h1]

theorem firstToken_battery (type : String) (h1 : includes type "THEFT" = false)
    (h2 : includes type "BATTERY" = true) : firstToken type = some "BATTERY" := by
  simp only [firstToken, fallbackTokens, List.find?_cons, h1, h2]

theorem firstToken_assault (type : String) (h1 : includes type "THEFT" = false)
    (h2 : includes type "BATTERY" = false) (h3 : includes type "ASSAULT" = true) :
    firstToken type = some "ASSAULT" := by
  simp only [firstToken, fallbackTokens, List.find?_cons, h1, h2, h3]

theorem firstToken_robbery (type : String) (h1 : includes type "THEFT" = false)
    (h2 : includes type "BATTERY" = false) (h3 : includes type "ASSAULT" = false)
    (h4 : includes type "ROBBERY" = true) : firstToken type = some "ROBBERY" := by
  simp only [firstToken, fallbackTokens, List.find?_cons, h1, h2, h3, h4]

theorem firstToken_none (type : String) (h1 : includes type "THEFT" = false)
    (h2 : includes type "BATTERY" = false) (h3 : includes type "ASSAULT" = false)
    (h4 : includes type "ROBBERY" = false) : firstToken type = none := by
  simp only [firstToken, fallbackTokens, List.find?_cons, h1, h2, h3, h4, List.find?_nil]

theorem jsOr_jsOr (v w : JsValue) : jsOr (jsOr v w) w = jsOr v w := by
  by_cases h : truthy v = true
  · simp only [jsOr, h, if_true]
  · simp only [jsOr, h, if_false, ite_self, Bool.false_eq_true]

/-! ## The upper-case mapping is idempotent -/

theorem runImage_eq_some (runs : List (Nat × Nat × Nat × Nat)) (c u : Nat)
    (h : runImage runs c = some u) :
    ∃ r ∈ runs, r.1 ≤ c ∧ c ≤ r.2.1 ∧ (c - r.1) % r.2.2.1 = 0 ∧ u = r.2.2.2 + (c - r.1) := by
  induction runs with
  | nil => cases h
  | cons r rest ih =>
    obtain ⟨first, last, stride, image⟩ := r
    simp only [runImage] at h
    split_ifs at h with h0 hc
    · exact ⟨_, List.mem_cons_self _ _, Nat.le_of_not_lt h0, hc.1, hc.2,
        (Option.some.inj h).symm⟩
    · obtain ⟨q, hq, hres⟩ := ih h
      exact ⟨q, List.mem_cons_of_mem _ hq, hres⟩

theorem runImage_eq_none (runs : List (Nat × Nat × Nat × Nat)) (u : Nat)
    (h : ∀ q ∈ runs, ¬ (q.1 ≤ u ∧ u ≤ q.2.1 ∧ (u - q.1) % q.2.2.1 = 0)) :
    runImage runs u = none := by
  induction runs with
  | nil => rfl
  | cons r rest ih =>
    obtain ⟨first, last, stride, image⟩ := r
    simp only [runImage]
    by_cases h0 : u < first
    · rw [if_pos h0]
    · rw [if_neg h0, if_neg fun hc => h _ (List.mem_cons_self _ _)
        ⟨Nat.le_of_not_lt h0, hc.1, hc.2⟩]
      exact ih fun q hq => h q (List.mem_cons_of_mem _ hq)

theorem specialImage_eq_none (table : List (Nat × List Nat)) (u : Nat)
    (h : ∀ e ∈ table, e.1 ≠ u) : specialImage table u = none := by
  induction table with
  | nil => rfl
  | cons e rest ih =>
    obtain ⟨k, v⟩ := e
    simp only [specialImage]
    by_cases h0 : u < k
    · rw [if_pos h0]
    · rw [if_neg h0, if_neg (Ne.symm (h _ (List.mem_cons_self _ _)))]
      exact ih fun e he => h e (List.mem_cons_of_mem _ he)

theorem specialImage_mem (table : List (Nat × List Nat)) (k : Nat) (v : List Nat)
    (h : specialImage table k = some v) : (k, v) ∈ table := by
  induction table with
  | nil => cases h
  | cons e rest ih =>
    obtain ⟨k1, v1⟩ := e
    simp only [specialImage] at h
    split_ifs at h with h0 h1
    · subst h1
      rw [Option.some.inj h]; exact List.mem_cons_self _ _
    · exact List.mem_cons_of_mem _ (ih h)

theorem runAvoidsRun_sound (r q : Nat × Nat × Nat × Nat) (c : Nat)
    (h : runAvoidsRun r q = true) (h1 : r.1 ≤ c) (h2 : c ≤ r.2.1)
    (h3 : (c - r.1) % r.2.2.1 = 0) :
    ¬ (q.1 ≤ r.2.2.2 + (c - r.1) ∧ r.2.2.2 + (c - r.1) ≤ q.2.1
        ∧ (r.2.2.2 + (c - r.1) - q.1) % q.2.2.1 = 0) := by
  obtain ⟨first, last, stride, image⟩ := r
  obtain ⟨f, l, s, i⟩ := q
  simp only [runAvoidsRun, Bool.or_eq_true, Bool.and_eq_true, Nat.blt_eq, Nat.beq_eq,
    Bool.not_eq_true'] at h
  simp only [] at h1 h2 h3 ⊢
  rintro ⟨g1, g2, g3⟩
  rcases h with (h | h) | ⟨⟨hs, hr⟩, hp⟩
  · omega
  · omega
  · subst hs
    have hp1 := Nat.ne_of_beq_eq_false hp
    rcases hr with hr | hr
    · subst hr; omega
    · omega

theorem runAvoidsKey_sound (r : Nat × Nat × Nat × Nat) (k c : Nat)
    (h : runAvoidsKey r k = true) (h1 : r.1 ≤ c) (h2 : c ≤ r.2.1)
    (h3 : (c - r.1) % r.2.2.1 = 0) : k ≠ r.2.2.2 + (c - r.1) := by
  obtain ⟨first, last, stride, image⟩ := r
  simp only [runAvoidsKey, Bool.or_eq_true, Bool.and_eq_true, Nat.blt_eq, Nat.beq_eq,
    Bool.not_eq_true'] at h
  simp only [] at h1 h2 h3 ⊢
  intro g
  rcases h with (h | h) | ⟨hr, hp⟩
  · omega
  · omega
  · have hp1 := Nat.ne_of_beq_eq_false hp
    rcases hr with hr | hr
    · subst hr; omega
    · omega

set_option maxRecDepth 100000 in
/-- The case tables are sorted, so the scans of `runImage` and `specialImage` may stop at the
first entry beyond the code point they look for. -/
theorem caseTables_sorted :
    runsSorted upperRuns = true ∧ runsSorted lowerRuns = true
      ∧ keysSorted upperSpecial = true ∧ keysSorted lowerSpecial = true := by
  refine ⟨by decide!, by decide!, by decide!, by decide!⟩

set_option maxRecDepth 100000 in
theorem upperTablesClosed_eq : upperTablesClosed = true := by decide!

/-- Every code point of an upper-case mapping is a scalar value that maps to itself. -/
theorem upperCodePoint_fixed (c u : Nat) (hc : isScalar c = true)
    (hu : u ∈ upperCodePoint c) : isScalar u = true ∧ upperCodePoint u = [u] := by
  have hclosed := upperTablesClosed_eq
  simp only [upperTablesClosed, Bool.and_eq_true, List.all_eq_true, Option.isNone_iff_eq_none]
    at hclosed
  obtain ⟨hruns, hspecial⟩ := hclosed
  have fixed_of : ∀ v, runImage upperRuns v = none → specialImage upperSpecial v = none →
      upperCodePoint v = [v] := by
    intro v g1 g2
    simp only [upperCodePoint, g1, g2]
  simp only [upperCodePoint] at hu
  cases h1 : runImage upperRuns c with
  | some v =>
    rw [h1] at hu
    simp only [List.mem_singleton] at hu
    subst hu
    obtain ⟨r, hr, a1, a2, a3, a4⟩ := runImage_eq_some _ _ _ h1
    obtain ⟨⟨hs, hrr⟩, hrk⟩ := hruns r hr
    subst a4
    refine ⟨?_, fixed_of _ ?_ ?_⟩
    · obtain ⟨first, last, stride, image⟩ := r
      simp only [runImagesScalar, isScalar, Bool.or_eq_true, Bool.and_eq_true,
        decide_eq_true_eq, Nat.blt_eq] at hs ⊢
      simp only [] at a1 a2
      omega
    · exact runImage_eq_none _ _ fun q hq => runAvoidsRun_sound r q c (hrr q hq) a1 a2 a3
    · exact specialImage_eq_none _ _ fun e he => runAvoidsKey_sound r e.1 c (hrk e he) a1 a2 a3
  | none =>
    rw [h1] at hu
    cases h2 : specialImage upperSpecial c with
    | some us =>
      rw [h2] at hu
      simp only [] at hu
      obtain ⟨⟨g1, g2⟩, g3⟩ := hspecial _ (specialImage_mem _ _ _ h2) u hu
      exact ⟨g1, fixed_of u g2 g3⟩
    | none =>
      rw [h2] at hu
      simp only [List.mem_singleton] at hu
      subst hu
      exact ⟨hc, fixed_of u h1 h2⟩

theorem toNat_ofNat_of_isScalar (u : Nat) (h : isScalar u = true) :
    (Char.ofNat u).toNat = u := by
  have hv : u.isValidChar := by
    simp only [isScalar, Bool.or_eq_true, Bool.and_eq_true, decide_eq_true_eq] at h
    simp only [Nat.isValidChar]
    omega
  simp only [Char.ofNat, hv, dif_pos, Char.ofNatAux, Char.toNat]
  rfl

theorem isScalar_toNat (c : Char) : isScalar c.toNat = true := by
  have h := c.valid
  simp only [isScalar, Bool.or_eq_true, Bool.and_eq_true, decide_eq_true_eq]
  simp only [UInt32.isValidChar, Nat.isValidChar] at h
  exact h

theorem upperChar_fixed (c b : Char) (hb : b ∈ upperChar c) : upperChar b = [b] := by
  simp only [upperChar, List.mem_map] at hb
  obtain ⟨u, hu, rfl⟩ := hb
  obtain ⟨hs, hf⟩ := upperCodePoint_fixed c.toNat u (isScalar_toNat c) hu
  simp only [upperChar, toNat_ofNat_of_isScalar u hs, hf, List.map_cons, List.map_nil]

theorem flatMap_fixed (f : Char → List Char) (l : List Char) (h : ∀ b ∈ l, f b = [b]) :
    l.flatMap f = l := by
  induction l with
  | nil => rfl
  | cons b rest ih =>
    simp only [List.flatMap_cons, h b (List.mem_cons_self _ _), List.singleton_append,
      ih fun x hx => h x (List.mem_cons_of_mem _ hx)]

/-- Upper-casing an upper-cased string changes nothing. -/
theorem toUpperCase_idem (s : String) : toUpperCase (toUpperCase s) = toUpperCase s := by
  simp only [toUpperCase]
  congr 1
  exact flatMap_fixed upperChar _ fun b hb => by
    obtain ⟨c, _, hc⟩ := List.mem_flatMap.1 hb
    exact upperChar_fixed c b hc

/-- C1: for every pair of strings, empty ones included, a call of mapCrimeType returns
without throwing, and what it returns is one of the five categories. -/
theorem mapCrimeType_total (t d : String) :
    mapCrimeTypeCall (.string t) (.string d) = .ok (mapCrimeType t d)
      ∧ mapCrimeType t d ∈ categories := by
  constructor
  · simp only [mapCrimeTypeCall, jsOr_string]
  · apply mapCrimeType_cases (fun r => r ∈ categories) t d <;> intros <;> decide

/-- C2: on every pair of strings mapCrimeType returns the same category as the first-match
evaluation of the ordered rule list of the specification on the upper-cased inputs, with
THEFT when no rule matches. -/
theorem mapCrimeType_eq_byRules (t d : String) :
    mapCrimeType t d = mapCrimeTypeByRules t d := by
  unfold mapCrimeTypeByRules
  apply mapCrimeType_cases
    (fun r => r = (firstMatch crimeRules (toUpperCase t) (toUpperCase d)).getD "THEFT") t d
  all_goals
    generalize toUpperCase t = T
    generalize toUpperCase d = D
    intros
    simp_all only [crimeRules, firstMatch, hateCrimeSignal, exactMatchNames, hateCrimeTypes,
      List.mem_cons, List.mem_singleton, List.not_mem_nil, or_false, not_or, or_assoc,
      Bool.or_eq_true, decide_eq_true_eq, Option.getD_some, Option.getD_none, if_true,
      if_false, Bool.false_eq_true, not_false_eq_true, and_self, or_self, true_or, or_true]

/-- C3: the result is HATE_CRIME exactly when the upper-cased type is one of SEX OFFENSE,
CRIM SEXUAL ASSAULT, STALKING, CRIMINAL SEXUAL ASSAULT or the upper-cased description
contains GENDER IDENTITY or SEXUAL ORIENTATION; so a description with the signal wins over
the types THEFT, BATTERY, ASSAULT and ROBBERY, and SEX OFFENSE with an empty description
is a HATE_CRIME. -/
theorem mapCrimeType_hate_iff :
    (∀ t d : String,
      mapCrimeType t d = "HATE_CRIME" ↔ hateCrimeSignal (toUpperCase t) (toUpperCase d))
    ∧ (∀ t d : String, toUpperCase t ∈ ["THEFT", "BATTERY", "ASSAULT", "ROBBERY"] →
        (includes (toUpperCase d) "GENDER IDENTITY" = true
          ∨ includes (toUpperCase d) "SEXUAL ORIENTATION" = true) →
        mapCrimeType t d = "HATE_CRIME")
    ∧ mapCrimeType "SEX OFFENSE" "" = "HATE_CRIME" := by
  have key : ∀ t d : String,
      mapCrimeType t d = "HATE_CRIME" ↔ hateCrimeSignal (toUpperCase t) (toUpperCase d) := by
    intro t d
    apply mapCrimeType_cases
      (fun r => r = "HATE_CRIME" ↔ hateCrimeSignal (toUpperCase t) (toUpperCase d)) t d
    · intro h; exact iff_of_true rfl h
    all_goals
      intro h
      intros
      exact iff_of_false (by decide) h
  refine ⟨key, ?_, by decide⟩
  intro t d _ hd
  exact (key t d).2 (Or.inr hd)

theorem mapCrimeType_hate_iff_witness :
    mapCrimeType "theft" "sexual orientation" = "HATE_CRIME" :=
  mapCrimeType_hate_iff.2.1 "theft" "sexual orientation" (by decide) (by decide)

/-- C5: when there is no hate-crime signal and the upper-cased type is none of the
exact-match names, the result is the category of the first of the tokens THEFT, BATTERY,
ASSAULT, ROBBERY, in that order, that the upper-cased type contains. ATTEMPT THEFT maps to
THEFT, and such a type with both ASSAULT and BATTERY in it, but not THEFT, maps to
BATTERY. -/
theorem mapCrimeType_substring_order :
    (∀ t d c : String, ¬ hateCrimeSignal (toUpperCase t) (toUpperCase d) →
      toUpperCase t ∉ exactMatchNames → firstToken (toUpperCase t) = some c →
      mapCrimeType t d = c)
    ∧ mapCrimeType "ATTEMPT THEFT" "" = "THEFT"
    ∧ (∀ t d : String, ¬ hateCrimeSignal (toUpperCase t) (toUpperCase d) →
      toUpperCase t ∉ exactMatchNames → includes (toUpperCase t) "ASSAULT" = true →
      includes (toUpperCase t) "BATTERY" = true → includes (toUpperCase t) "THEFT" = false →
      mapCrimeType t d = "BATTERY") := by
  have key : ∀ t d c : String, ¬ hateCrimeSignal (toUpperCase t) (toUpperCase d) →
      toUpperCase t ∉ exactMatchNames → firstToken (toUpperCase t) = some c →
      mapCrimeType t d = c := by
    intro t d c hn he
    apply mapCrimeType_cases (fun r => firstToken (toUpperCase t) = some c → r = c) t d
    · intro h; exact absurd h hn
    · intro _ h; exact absurd ((mem_exactMatchNames _).2 (Or.inl h)) he
    · intro _ _ h; exact absurd ((mem_exactMatchNames _).2 (Or.inr (Or.inl h))) he
    · intro _ _ _ h; exact absurd ((mem_exactMatchNames _).2 (Or.inr (Or.inr (Or.inl h)))) he
    · intro _ _ _ _ h
      exact absurd ((mem_exactMatchNames _).2 (Or.inr (Or.inr (Or.inr h)))) he
    · intro _ _ h1 hf
      rw [firstToken_theft _ h1] at hf
      exact Option.some.inj hf
    · intro _ _ h1 h2 hf
      rw [firstToken_battery _ h1 h2] at hf
      exact Option.some.inj hf
    · intro _ _ h1 h2 h3 hf
      rw [firstToken_assault _ h1 h2 h3] at hf
      exact Option.some.inj hf
    · intro _ _ h1 h2 h3 h4 hf
      rw [firstToken_robbery _ h1 h2 h3 h4] at hf
      exact Option.some.inj hf
    · intro _ _ h1 h2 h3 h4 hf
      rw [firstToken_none _ h1 h2 h3 h4] at hf
      cases hf
  refine ⟨key, by decide, ?_⟩
  intro t d hn he _ hb ht
  exact key t d "BATTERY" hn he (firstToken_battery _ ht hb)

theorem mapCrimeType_substring_order_witness :
    mapCrimeType "assault and battery" "" = "BATTERY" :=
  mapCrimeType_substring_order.2.2 "assault and battery" "" (by decide) (by decide)
    (by decide) (by decide) (by decide)

/-- C6: when there is no hate-crime signal and the upper-cased type is none of the
exact-match names and contains none of THEFT, BATTERY, ASSAULT, ROBBERY, the result is
THEFT; so it is for the type CRIMINAL DAMAGE and for the empty type. -/
theorem mapCrimeType_default :
    (∀ t d : String, ¬ hateCrimeSignal (toUpperCase t) (toUpperCase d) →
      toUpperCase t ∉ exactMatchNames →
      (∀ token ∈ fallbackTokens, includes (toUpperCase t) token = false) →
      mapCrimeType t d = "THEFT")
    ∧ mapCrimeType "CRIMINAL DAMAGE" "" = "THEFT"
    ∧ mapCrimeType "" "" = "THEFT" := by
  refine ⟨?_, by decide, by decide⟩
  intro t d hn he hnone
  have h1 : includes (toUpperCase t) "THEFT" = false := hnone _ (by decide)
  have h2 : includes (toUpperCase t) "BATTERY" = false := hnone _ (by decide)
  have h3 : includes (toUpperCase t) "ASSAULT" = false := hnone _ (by decide)
  have h4 : includes (toUpperCase t) "ROBBERY" = false := hnone _ (by decide)
  apply mapCrimeType_cases (fun r => r = "THEFT") t d
  · intro h; exact absurd h hn
  · intros; rfl
  · intro _ _ h; exact absurd ((mem_exactMatchNames _).2 (Or.inr (Or.inl h))) he
  · intro _ _ _ h; exact absurd ((mem_exactMatchNames _).2 (Or.inr (Or.inr (Or.inl h)))) he
  · intro _ _ _ _ h
    exact absurd ((mem_exactMatchNames _).2 (Or.inr (Or.inr (Or.inr h)))) he
  · intros; rfl
  · intro _ _ _ h; rw [h2] at h; exact absurd h (by decide)
  · intro _ _ _ _ h; rw [h3] at h; exact absurd h (by decide)
  · intro _ _ _ _ _ h; rw [h4] at h; exact absurd h (by decide)
  · intros; rfl

theorem mapCrimeType_default_witness : mapCrimeType "Narcotics" "possession" = "THEFT" :=
  mapCrimeType_default.1 "Narcotics" "possession" (by decide) (by decide) (by decide)

/-! ## Case-insensitivity of the classifier -/

/-- The classifier reads its arguments through `toUpperCase` only. -/
theorem mapCrimeType_congr (t d t1 d1 : String) (ht : toUpperCase t = toUpperCase t1)
    (hd : toUpperCase d = toUpperCase d1) : mapCrimeType t d = mapCrimeType t1 d1 := by
  unfold mapCrimeType
  rw [orEmpty_eq, orEmpty_eq, ht, hd]

set_option maxRecDepth 100000 in
theorem asciiCaseChecked_eq : asciiCaseChecked = true := by decide!

theorem map_ofNat_flatMap_upperChar (l : List Nat) (h : ∀ u ∈ l, isScalar u = true) :
    (l.map Char.ofNat).flatMap upperChar = (l.flatMap upperCodePoint).map Char.ofNat := by
  induction l with
  | nil => rfl
  | cons u rest ih =>
    simp only [List.map_cons, List.flatMap_cons, List.map_append,
      ih fun x hx => h x (List.mem_cons_of_mem _ hx), upperChar,
      toNat_ofNat_of_isScalar u (h u (List.mem_cons_self _ _))]

theorem upperChar_lowerChar_of_ascii (c : Char) (h : c.toNat < 128) :
    (lowerChar c).flatMap upperChar = upperChar c := by
  have hchk := asciiCaseChecked_eq
  simp only [asciiCaseChecked, List.all_eq_true, List.mem_range, Bool.and_eq_true,
    beq_iff_eq] at hchk
  obtain ⟨hs, he⟩ := hchk c.toNat h
  simp only [lowerChar, upperChar, map_ofNat_flatMap_upperChar _ hs, he]

theorem lowerFrom_ascii (l : List Char) (h : ∀ c ∈ l, c.toNat < 128) :
    ∀ before : List Char, (lowerFrom before l).flatMap upperChar = l.flatMap upperChar := by
  induction l with
  | nil => intro before; rfl
  | cons c rest ih =>
    intro before
    have hc : c.toNat < 128 := h c (List.mem_cons_self _ _)
    have hne : ¬ c.toNat = 0x3A3 := by omega
    simp only [lowerFrom, if_neg hne, List.flatMap_append, List.flatMap_cons,
      upperChar_lowerChar_of_ascii c hc,
      ih (fun x hx => h x (List.mem_cons_of_mem _ hx)) (c :: before)]

/-- Lower-casing an ASCII string does not change its upper-casing. -/
theorem toUpperCase_toLowerCase_of_ascii (s : String) (h : isAscii s) :
    toUpperCase (toLowerCase s) = toUpperCase s := by
  simp only [toUpperCase, toLowerCase]
  congr 1
  exact lowerFrom_ascii s.data h []

set_option maxRecDepth 10000 in
/-- C4 as stated fails: the type STALKING written with the Kelvin sign is not a hate-crime
type and falls to the default THEFT, while its lower-casing is the text stalking, which
maps to HATE_CRIME. -/
theorem lowerCase_changes_category :
    mapCrimeType kelvinStalking "" = "THEFT"
      ∧ toLowerCase kelvinStalking = "stalking"
      ∧ mapCrimeType (toLowerCase kelvinStalking) (toLowerCase "") = "HATE_CRIME" := by
  refine ⟨by decide, by decide, by decide⟩

/-- C4, amended: for all strings t and d, mapCrimeType(t, d) = mapCrimeType(upper(t),
upper(d)); and mapCrimeType(t, d) = mapCrimeType(lower(t), lower(d)) whenever lower-casing
leaves the upper-casing of t and of d unchanged, which is so for every string of ASCII
characters. mapCrimeType of theft is THEFT and of Aggravated Battery is BATTERY. -/
theorem mapCrimeType_case_insensitive :
    (∀ t d : String, mapCrimeType t d = mapCrimeType (toUpperCase t) (toUpperCase d))
    ∧ (∀ t d : String, toUpperCase (toLowerCase t) = toUpperCase t →
        toUpperCase (toLowerCase d) = toUpperCase d →
        mapCrimeType t d = mapCrimeType (toLowerCase t) (toLowerCase d))
    ∧ (∀ t d : String, isAscii t → isAscii d →
        mapCrimeType t d = mapCrimeType (toLowerCase t) (toLowerCase d))
    ∧ mapCrimeType "theft" "" = "THEFT"
    ∧ mapCrimeType "Aggravated Battery" "" = "BATTERY" := by
  refine ⟨?_, ?_, ?_, by decide, by decide⟩
  · intro t d
    exact mapCrimeType_congr _ _ _ _ (toUpperCase_idem t).symm (toUpperCase_idem d).symm
  · intro t d ht hd
    exact mapCrimeType_congr _ _ _ _ ht.symm hd.symm
  · intro t d ht hd
    exact mapCrimeType_congr _ _ _ _ (toUpperCase_toLowerCase_of_ascii t ht).symm
      (toUpperCase_toLowerCase_of_ascii d hd).symm

theorem mapCrimeType_case_insensitive_witness :
    mapCrimeType "Straße" "Überfall"
        = mapCrimeType (toLowerCase "Straße") (toLowerCase "Überfall")
      ∧ mapCrimeType "Armed Robbery" "Handgun"
        = mapCrimeType (toLowerCase "Armed Robbery") (toLowerCase "Handgun") :=
  ⟨mapCrimeType_case_insensitive.2.1 "Straße" "Überfall" (by decide) (by decide),
    mapCrimeType_case_insensitive.2.2.1 "Armed Robbery" "Handgun" (by decide) (by decide)⟩

/-! ## The severity lookup -/

/-- C7 as stated fails: the string constructor is outside the five categories, and on it
getCrimeSeverity returns the function that the lookup object inherits under that name, not
the default 3. -/
theorem getCrimeSeverity_inherited :
    "constructor" ∉ categories
      ∧ getCrimeSeverity "constructor" = .object "Object.prototype.constructor"
      ∧ getCrimeSeverity "constructor" ≠ .number 3 := by
  refine ⟨by decide, by decide, by decide⟩

/-- C7, amended: getCrimeSeverity is the fixed lookup HATE_CRIME to 10, ROBBERY to 8,
ASSAULT to 7, BATTERY to 5, THEFT to 3, and it returns 3 for every other string that is
not the name of a property inherited from Object.prototype, such as UNKNOWN. The argument
that the handler passes is a result of mapCrimeType, which is never such a name. -/
theorem getCrimeSeverity_lookup :
    getCrimeSeverity "HATE_CRIME" = .number 10 ∧ getCrimeSeverity "ROBBERY" = .number 8
      ∧ getCrimeSeverity "ASSAULT" = .number 7 ∧ getCrimeSeverity "BATTERY" = .number 5
      ∧ getCrimeSeverity "THEFT" = .number 3
      ∧ (∀ type : String, type ∉ categories → type ∉ objectPrototypeKeys →
          getCrimeSeverity type = .number 3)
      ∧ getCrimeSeverity "UNKNOWN" = .number 3
      ∧ ∀ t d : String, mapCrimeType t d ∉ objectPrototypeKeys := by
  refine ⟨by decide, by decide, by decide, by decide, by decide, ?_, by decide, ?_⟩
  · intro type hc hp
    simp only [categories, List.mem_cons, List.mem_singleton, List.not_mem_nil, or_false,
      not_or] at hc
    obtain ⟨c1, c2, c3, c4, c5⟩ := hc
    have hne : ∀ a : String, ¬ type = a → (type == a) = false := fun a h => beq_false_of_ne h
    have hl : severityMap.lookup type = none := by
      simp only [severityMap, List.lookup, hne _ c1, hne _ c2, hne _ c3, hne _ c4, hne _ c5]
    simp only [getCrimeSeverity, severityMapGet, hl, if_neg hp, jsOr, truthy,
      Bool.false_eq_true, if_false]
  · intro t d
    apply mapCrimeType_cases (fun r => r ∉ objectPrototypeKeys) t d <;> intros <;> decide

theorem getCrimeSeverity_lookup_witness : getCrimeSeverity "NARCOTICS" = .number 3 :=
  getCrimeSeverity_lookup.2.2.2.2.2.1 "NARCOTICS" (by decide) (by decide)

/-! ## The crime data endpoint -/

theorem statsTotal_setStat (stats : CrimeStats) (key : String) :
    statsTotal (setStat stats key ((stats.lookup key).getD 0 + 1)) = statsTotal stats + 1 := by
  induction stats with
  | nil => rfl
  | cons e rest ih =>
    obtain ⟨k, v⟩ := e
    by_cases h : k = key
    · subst h
      simp only [setStat, statsTotal, List.lookup, beq_self_eq_true, Option.getD_some,
        if_true, List.map_cons, List.sum_cons]
      omega
    · have hb : (key == k) = false := beq_false_of_ne (Ne.symm h)
      simp only [statsTotal] at ih
      simp only [setStat, statsTotal, List.lookup, hb, if_neg h, List.map_cons,
        List.sum_cons, ih]
      omega

theorem statsTotal_countType (stats : CrimeStats) (mappedType : String) :
    statsTotal (countType stats mappedType) = statsTotal stats + 1 :=
  statsTotal_setStat stats mappedType

/-- A call of `mapCrimeType` that returns was made on two strings. -/
theorem mapCrimeTypeCall_ok_inv (primaryType description : JsValue) (ty : String)
    (h : mapCrimeTypeCall primaryType (jsOr description (.string "")) = .ok ty) :
    ∃ t s, primaryType = .string t ∧ jsOr description (.string "") = .string s
      ∧ ty = mapCrimeType t s := by
  simp only [mapCrimeTypeCall, jsOr_jsOr] at h
  cases primaryType with
  | string t =>
    cases hs : jsOr description (.string "") with
    | string s =>
      rw [hs] at h
      exact ⟨t, s, rfl, rfl, (Except.ok.inj h).symm⟩
    | undefined => rw [hs] at h; cases h
    | null => rw [hs] at h; cases h
    | boolean b => rw [hs] at h; cases h
    | number n => rw [hs] at h; cases h
    | object l => rw [hs] at h; cases h
  | undefined => cases h
  | null => cases h
  | boolean b => cases h
  | number n => cases h
  | object l => cases h

/-- A successful run of the callback of `map`: the classification returned, no conversion
threw, the count of the type was raised and the point is the object literal. -/
theorem mapRecord_ok_inv {F : Type} (host : Host F) (stats stats1 : CrimeStats)
    (d : RawIncident) (p : NormalizedPoint F) (h : mapRecord host stats d = .ok (stats1, p)) :
    ∃ ty, mapCrimeTypeCall (jsOr d.primary_type (.string ""))
          (jsOr d.description (.string "")) = .ok ty
      ∧ stats1 = countType stats ty ∧ p = makePoint host d ty
      ∧ conversionThrows host d.latitude = false
      ∧ conversionThrows host d.longitude = false
      ∧ (truthy d.date && conversionThrows host d.date) = false := by
  simp only [mapRecord] at h
  cases hm : mapCrimeTypeCall (jsOr d.primary_type (.string ""))
      (jsOr d.description (.string "")) with
  | error e => rw [hm] at h; cases h
  | ok ty =>
    rw [hm] at h
    simp only [] at h
    split_ifs at h with c1 c2 c3
    simp only [Except.ok.injEq, Prod.mk.injEq] at h
    exact ⟨ty, rfl, h.1.symm, h.2.symm, Bool.eq_false_iff.2 c1, Bool.eq_false_iff.2 c2,
      Bool.eq_false_iff.2 c3⟩

/-- A successful run of `map` returns one point for each record, built by the callback, and
raises the total of the counts by the number of records. -/
theorem mapRecords_ok {F : Type} (host : Host F) (records : List RawIncident) :
    ∀ (stats stats1 : CrimeStats) (points : List (NormalizedPoint F)),
      mapRecords host stats records = .ok (stats1, points) →
      List.Forall₂ (IsPointOf host) records points
        ∧ statsTotal stats1 = statsTotal stats + points.length := by
  induction records with
  | nil =>
    intro stats stats1 points h
    simp only [mapRecords, Except.ok.injEq, Prod.mk.injEq] at h
    obtain ⟨h1, h2⟩ := h
    subst h1 h2
    exact ⟨List.Forall₂.nil, rfl⟩
  | cons d rest ih =>
    intro stats stats1 points h
    simp only [mapRecords] at h
    cases hd : mapRecord host stats d with
    | error e => rw [hd] at h; cases h
    | ok r =>
      obtain ⟨statsA, p⟩ := r
      rw [hd] at h
      simp only [] at h
      cases hr : mapRecords host statsA rest with
      | error e => rw [hr] at h; cases h
      | ok r2 =>
        obtain ⟨statsB, ps⟩ := r2
        rw [hr] at h
        simp only [Except.ok.injEq, Prod.mk.injEq] at h
        obtain ⟨h1, h2⟩ := h
        subst h1 h2
        obtain ⟨hf, ht⟩ := ih statsA statsB ps hr
        refine ⟨List.Forall₂.cons ⟨stats, statsA, hd⟩ hf, ?_⟩
        have hA : statsTotal statsA = statsTotal stats + 1 := by
          obtain ⟨ty, _, hst, _⟩ := mapRecord_ok_inv host stats statsA d p hd
          rw [hst]
          exact statsTotal_countType stats ty
        rw [ht, hA, List.length_cons]
        omega

/-- What a success response of the handler consists of. -/
theorem crimeHandler_success {F : Type} (host : Host F) (data : List RawIncident)
    (status : Nat) (body : AggregateResponse F)
    (h : crimeHandler host (.ok data) = .success status body) :
    status = 200 ∧ body.totalRecords = data.length ∧ body.mappedRecords = body.points.length
      ∧ mapRecords host [] (data.filter hasCoordinates) = .ok (body.stats, body.points) := by
  simp only [crimeHandler] at h
  cases hm : mapRecords host [] (data.filter hasCoordinates) with
  | error e => rw [hm] at h; cases h
  | ok r =>
    obtain ⟨stats, points⟩ := r
    rw [hm] at h
    simp only [Response.success.injEq] at h
    obtain ⟨h1, h2⟩ := h
    subst h1 h2
    exact ⟨rfl, rfl, rfl, rfl⟩

/-- C8: whenever the handler answers a list of raw records with an aggregate response,
mappedRecords is the length of points, which is the sum of all values of stats, and
totalRecords is at least mappedRecords. -/
theorem aggregate_invariant {F : Type} (host : Host F) (data : List RawIncident)
    (status : Nat) (body : AggregateResponse F)
    (h : crimeHandler host (.ok data) = .success status body) :
    body.mappedRecords = body.points.length ∧ body.points.length = statsTotal body.stats
      ∧ body.totalRecords ≥ body.mappedRecords := by
  obtain ⟨_, ht, hm, hr⟩ := crimeHandler_success host data status body h
  obtain ⟨hf, hs⟩ := mapRecords_ok host _ _ _ _ hr
  refine ⟨hm, ?_, ?_⟩
  · rw [hs]; simp only [statsTotal, List.map_nil, List.sum_nil, Nat.zero_add]
  · rw [ht, hm, ← hf.length_eq]
    exact List.length_filter_le _ _

theorem aggregate_invariant_witness :
    ∃ body : AggregateResponse JsValue,
      crimeHandler exampleHost
          (.ok [exampleRecord, exampleRecordNoCoordinates, exampleRecordNoBlock])
        = .success 200 body
      ∧ body.mappedRecords = 2 ∧ body.totalRecords = 3 ∧ body.stats = [("ROBBERY", 2)]
      ∧ body.mappedRecords = body.points.length
      ∧ body.points.length = statsTotal body.stats
      ∧ body.totalRecords ≥ body.mappedRecords :=
  ⟨_, rfl, rfl, rfl, rfl,
    aggregate_invariant exampleHost
      [exampleRecord, exampleRecordNoCoordinates, exampleRecordNoBlock] 200 _ rfl⟩

theorem optionalString_or_string (v : JsValue) (h : optionalString v) :
    ∃ s, jsOr v (.string "") = .string s := by
  cases v with
  | undefined => exact ⟨"", rfl⟩
  | null => exact ⟨"", rfl⟩
  | string s => exact ⟨s, jsOr_string s⟩
  | boolean b => exact absurd h (by simp only [optionalString, not_false_eq_true])
  | number n => exact absurd h (by simp only [optionalString, not_false_eq_true])
  | object l => exact absurd h (by simp only [optionalString, not_false_eq_true])

theorem conversionThrows_of_optionalString {F : Type} (host : Host F) (v : JsValue)
    (h : optionalString v) : conversionThrows host v = false := by
  cases v with
  | undefined => rfl
  | null => rfl
  | string s => rfl
  | boolean b => rfl
  | number n => rfl
  | object l => exact absurd h (by simp only [optionalString, not_false_eq_true])

/-- The callback of `map` returns on a well-typed record. -/
theorem mapRecord_ok_of_wellTyped {F : Type} (host : Host F) (stats : CrimeStats)
    (d : RawIncident) (hw : d.WellTyped) :
    ∃ ty, mapRecord host stats d = .ok (countType stats ty, makePoint host d ty) := by
  obtain ⟨t, ht⟩ := optionalString_or_string _ hw.2.2.1
  obtain ⟨s, hs⟩ := optionalString_or_string _ hw.2.2.2.1
  refine ⟨mapCrimeType t s, ?_⟩
  simp only [mapRecord, ht, hs, mapCrimeTypeCall, jsOr_string,
    conversionThrows_of_optionalString host _ hw.1,
    conversionThrows_of_optionalString host _ hw.2.1,
    conversionThrows_of_optionalString host _ hw.2.2.2.2.1, Bool.and_false,
    Bool.false_eq_true, if_false]

/-- The method `map` runs to its end on well-typed records. -/
theorem mapRecords_ok_of_wellTyped {F : Type} (host : Host F)
    (records : List RawIncident) (h : ∀ d ∈ records, d.WellTyped) :
    ∀ stats : CrimeStats, ∃ r, mapRecords host stats records = .ok r := by
  induction records with
  | nil => intro stats; exact ⟨_, rfl⟩
  | cons d rest ih =>
    intro stats
    obtain ⟨ty, hty⟩ := mapRecord_ok_of_wellTyped host stats d (h d (List.mem_cons_self _ _))
    obtain ⟨r, hr⟩ := ih (fun x hx => h x (List.mem_cons_of_mem _ hx)) (countType stats ty)
    obtain ⟨stats2, points⟩ := r
    exact ⟨(stats2, makePoint host d ty :: points), by simp only [mapRecords, hty, hr]⟩

/-- The handler answers well-typed records with a success response. -/
theorem crimeHandler_ok_of_wellTyped {F : Type} (host : Host F) (data : List RawIncident)
    (h : ∀ d ∈ data, d.WellTyped) :
    ∃ body, crimeHandler host (.ok data) = .success 200 body := by
  obtain ⟨r, hr⟩ := mapRecords_ok_of_wellTyped host (data.filter hasCoordinates)
    (fun d hd => h d (List.mem_of_mem_filter hd)) []
  obtain ⟨stats, points⟩ := r
  exact ⟨{ points := points, stats := stats, totalRecords := data.length,
            mappedRecords := points.length }, by simp only [crimeHandler, hr]⟩

/-- The handler answers with the error envelope when a latitude is an object that cannot be
converted to a primitive value. -/
theorem crimeHandler_conversion_throws :
    crimeHandler exampleHost (.ok [exampleRecord, exampleRecordObjectLatitude])
      = .failure 500 "Failed to fetch crime data"
          "Cannot convert object to primitive value" := by
  rfl

/-- C9: the handler answers every list of well-typed raw records with a success response.
In every success response points holds, in the order of the input, exactly the points
built from the records whose latitude and longitude are both truthy, and totalRecords is
the length of the whole input. A record whose latitude or longitude is absent, null or
the empty string is not among them; on a well-typed record truthy means a non-empty
string. -/
theorem coordinate_filter {F : Type} (host : Host F) (data : List RawIncident) :
    ((∀ d ∈ data, d.WellTyped) → ∃ body, crimeHandler host (.ok data) = .success 200 body)
    ∧ (∀ status body, crimeHandler host (.ok data) = .success status body →
        List.Forall₂ (IsPointOf host) (data.filter hasCoordinates) body.points
          ∧ body.totalRecords = data.length)
    ∧ (∀ d : RawIncident,
        (d.latitude ∈ [JsValue.undefined, JsValue.null, JsValue.string ""]
          ∨ d.longitude ∈ [JsValue.undefined, JsValue.null, JsValue.string ""]) →
        d ∉ data.filter hasCoordinates)
    ∧ (∀ d : RawIncident, d.WellTyped →
        (hasCoordinates d = true ↔
          (∃ s, s ≠ "" ∧ d.latitude = .string s) ∧ ∃ s, s ≠ "" ∧ d.longitude = .string s)) := by
  refine ⟨crimeHandler_ok_of_wellTyped host data, ?_, ?_, ?_⟩
  · intro status body h
    obtain ⟨_, ht, _, hr⟩ := crimeHandler_success host data status body h
    exact ⟨(mapRecords_ok host _ _ _ _ hr).1, ht⟩
  · intro d h hmem
    have hc : hasCoordinates d = true := (List.mem_filter.1 hmem).2
    simp only [hasCoordinates, Bool.and_eq_true] at hc
    simp only [List.mem_cons, List.mem_singleton, List.not_mem_nil, or_false] at h
    rcases h with (h | h | h) | (h | h | h)
    · rw [h] at hc; exact absurd hc.1 (by decide)
    · rw [h] at hc; exact absurd hc.1 (by decide)
    · rw [h] at hc; exact absurd hc.1 (by decide)
    · rw [h] at hc; exact absurd hc.2 (by decide)
    · rw [h] at hc; exact absurd hc.2 (by decide)
    · rw [h] at hc; exact absurd hc.2 (by decide)
  · intro d hw
    have key : ∀ v : JsValue, optionalString v →
        (truthy v = true ↔ ∃ s, s ≠ "" ∧ v = .string s) := by
      intro v hv
      cases v with
      | undefined => exact iff_of_false (by decide) (fun ⟨_, _, h⟩ => by cases h)
      | null => exact iff_of_false (by decide) (fun ⟨_, _, h⟩ => by cases h)
      | string s =>
        simp only [truthy, bne_iff_ne, ne_eq, JsValue.string.injEq, exists_eq_right']
      | boolean b => exact absurd hv (by simp only [optionalString, not_false_eq_true])
      | number n => exact absurd hv (by simp only [optionalString, not_false_eq_true])
      | object l => exact absurd hv (by simp only [optionalString, not_false_eq_true])
    simp only [hasCoordinates, Bool.and_eq_true, key _ hw.1, key _ hw.2.1]

theorem coordinate_filter_witness :
    ∃ body : AggregateResponse JsValue,
      crimeHandler exampleHost
          (.ok [exampleRecordNoCoordinates, exampleRecord, exampleRecordNoBlock])
        = .success 200 body
      ∧ List.Forall₂ (IsPointOf exampleHost) [exampleRecord, exampleRecordNoBlock] body.points
      ∧ body.totalRecords = 3 :=
  ⟨_, rfl,
    (coordinate_filter exampleHost
      [exampleRecordNoCoordinates, exampleRecord, exampleRecordNoBlock]).2.1 200 _ rfl⟩

/-- The fields of a point that the callback of `map` returns on a record. -/
theorem isPointOf_fields {F : Type} (host : Host F) (d : RawIncident) (p : NormalizedPoint F)
    (h : IsPointOf host d p) :
    (∃ t s, jsOr d.primary_type (.string "") = .string t
        ∧ jsOr d.description (.string "") = .string s ∧ p.type = mapCrimeType t s)
      ∧ p = makePoint host d p.type := by
  obtain ⟨stats, stats1, h⟩ := h
  obtain ⟨ty, hm, _, hp, _⟩ := mapRecord_ok_inv host stats stats1 d p h
  obtain ⟨t, s, ht, hs, hty⟩ := mapCrimeTypeCall_ok_inv _ _ _ hm
  have hpt : p.type = ty := by rw [hp]; rfl
  exact ⟨⟨t, s, ht, hs, hpt.trans hty⟩, by rw [hpt]; exact hp⟩

/-- C10 as stated fails: the example record without its field block passes the coordinate
filter and yields a point whose block is the text Unknown location, not the block of the
record, which is absent. -/
theorem point_block_not_copied :
    hasCoordinates exampleRecordNoBlock = true
      ∧ IsPointOf exampleHost exampleRecordNoBlock
          (makePoint exampleHost exampleRecordNoBlock "ROBBERY")
      ∧ (makePoint exampleHost exampleRecordNoBlock "ROBBERY").block
          = .string "Unknown location"
      ∧ (makePoint exampleHost exampleRecordNoBlock "ROBBERY").block
          ≠ exampleRecordNoBlock.block :=
  ⟨by decide, ⟨[], [("ROBBERY", 1)], rfl⟩, rfl, by decide⟩

/-- C10, amended: in every success response, the point of each record that passes the
coordinate filter has type mapCrimeType(primary_type or empty string, description or
empty string), severity getCrimeSeverity(type), rawDate the date of the record, rawType its
primary_type, and block the block of the record when that is truthy and the text Unknown
location otherwise. The example record of the specification yields type ROBBERY, desc
ARMED, its date as rawDate, rawType ROBBERY, severity 8, block 100 S STATE ST and
arrestMade true. -/
theorem point_construction :
    (∀ {F : Type} (host : Host F) (data : List RawIncident) (status : Nat)
        (body : AggregateResponse F),
        crimeHandler host (.ok data) = .success status body →
        List.Forall₂
          (fun d p =>
            (∃ t s, jsOr d.primary_type (.string "") = .string t
              ∧ jsOr d.description (.string "") = .string s ∧ p.type = mapCrimeType t s)
            ∧ p.severity = getCrimeSeverity p.type ∧ p.rawDate = d.date
            ∧ p.rawType = d.primary_type
            ∧ p.block = if truthy d.block then d.block else .string "Unknown location")
          (data.filter hasCoordinates) body.points)
    ∧ ∃ body : AggregateResponse JsValue,
        crimeHandler exampleHost (.ok [exampleRecord]) = .success 200 body
        ∧ body.points.map
            (fun p => (p.type, p.desc, p.rawDate, p.rawType, p.severity, p.block, p.arrestMade))
          = [("ROBBERY", .string "ARMED", .string "2024-11-05T00:00:00.000",
              .string "ROBBERY", .number 8, .string "100 S STATE ST", true)] := by
  refine ⟨?_, _, rfl, rfl⟩
  intro F host data status body h
  obtain ⟨_, _, _, hr⟩ := crimeHandler_success host data status body h
  refine (mapRecords_ok host _ _ _ _ hr).1.imp ?_
  intro d p hp
  obtain ⟨hty, hmk⟩ := isPointOf_fields host d p hp
  refine ⟨hty, ?_, ?_, ?_, ?_⟩
  · rw [hmk]; rfl
  · rw [hmk]; rfl
  · rw [hmk]; rfl
  · rw [hmk]; rfl

theorem point_construction_witness :
    ∃ body : AggregateResponse JsValue,
      crimeHandler exampleHost (.ok [exampleRecordNoBlock]) = .success 200 body
      ∧ List.Forall₂
          (fun d p =>
            (∃ t s, jsOr d.primary_type (.string "") = .string t
              ∧ jsOr d.description (.string "") = .string s ∧ p.type = mapCrimeType t s)
            ∧ p.severity = getCrimeSeverity p.type ∧ p.rawDate = d.date
            ∧ p.rawType = d.primary_type
            ∧ p.block = if truthy d.block then d.block else .string "Unknown location")
          [exampleRecordNoBlock] body.points :=
  ⟨_, rfl, point_construction.1 exampleHost [exampleRecordNoBlock] 200 _ rfl⟩

/-! ## The failure path and the remaining fields of a point -/

/-- C11: when the outbound call fails with an error, the handler answers with status 500
and a body of exactly the two fields error and message, where error is the fixed text
Failed to fetch crime data and message is the message of that error; the body has no field
points, stats, totalRecords or mappedRecords, and the handler returns this response rather
than raising anything. -/
theorem fetch_failure {F : Type} (host : Host F) (message : String) :
    crimeHandler host (.error message) = .failure 500 "Failed to fetch crime data" message
      ∧ (crimeHandler host (.error message)).status = 500
      ∧ (crimeHandler host (.error message)).fields = ["error", "message"]
      ∧ (∀ field ∈ ["points", "stats", "totalRecords", "mappedRecords"],
          field ∉ (crimeHandler host (.error message)).fields)
      ∧ ∀ status body, crimeHandler host (.error message) ≠ .success status body := by
  refine ⟨rfl, rfl, rfl, ?_, ?_⟩
  · intro field hf
    have hfields : (crimeHandler host (.error message)).fields = ["error", "message"] := rfl
    rw [hfields]
    simp only [List.mem_cons, List.mem_singleton, List.not_mem_nil, or_false] at hf ⊢
    rcases hf with h | h | h | h <;> subst h <;> decide
  · intro status body h
    cases h

/-- C12: the arrestMade of a point is true exactly when the arrest field of its record is
the string true or the boolean true; it is false when the field is absent, null, the string
false, TRUE or 1, the boolean false, or a number. -/
theorem arrestMade_iff {F : Type} (host : Host F) (d : RawIncident) (p : NormalizedPoint F)
    (h : IsPointOf host d p) :
    (p.arrestMade = true ↔ d.arrest = .string "true" ∨ d.arrest = .boolean true)
      ∧ (d.arrest ∈ [JsValue.undefined, JsValue.null, JsValue.string "false",
            JsValue.string "TRUE", JsValue.string "1", JsValue.boolean false]
          ∨ (∃ n, d.arrest = .number n) → p.arrestMade = false) := by
  obtain ⟨_, hmk⟩ := isPointOf_fields host d p h
  have key : p.arrestMade = true ↔ d.arrest = .string "true" ∨ d.arrest = .boolean true := by
    rw [hmk]
    simp only [makePoint, Bool.or_eq_true, decide_eq_true_eq]
  refine ⟨key, ?_⟩
  intro hv
  cases hp : p.arrestMade with
  | false => rfl
  | true =>
    rcases key.1 hp with ha | ha
    · rw [ha] at hv
      rcases hv with hv | ⟨n, hn⟩
      · exact absurd hv (by decide)
      · cases hn
    · rw [ha] at hv
      rcases hv with hv | ⟨n, hn⟩
      · exact absurd hv (by decide)
      · cases hn

theorem arrestMade_iff_witness :
    ((makePoint exampleHost exampleRecordNoBlock "ROBBERY").arrestMade = true ↔
        exampleRecordNoBlock.arrest = .string "true"
          ∨ exampleRecordNoBlock.arrest = .boolean true)
      ∧ (exampleRecordNoBlock.arrest ∈ [JsValue.undefined, JsValue.null,
            JsValue.string "false", JsValue.string "TRUE", JsValue.string "1",
            JsValue.boolean false]
          ∨ (∃ n, exampleRecordNoBlock.arrest = .number n) →
        (makePoint exampleHost exampleRecordNoBlock "ROBBERY").arrestMade = false) :=
  arrestMade_iff exampleHost exampleRecordNoBlock
    (makePoint exampleHost exampleRecordNoBlock "ROBBERY") ⟨[], [("ROBBERY", 1)], rfl⟩

/-- C13 as stated fails: a record with neither a description nor a primary type passes the
coordinate filter and yields the empty string as desc, not its absent primary type; and a
record whose description is present but empty yields its primary type, not its
description. -/
theorem desc_not_primary_type :
    hasCoordinates exampleRecordNoText = true
      ∧ IsPointOf exampleHost exampleRecordNoText
          (makePoint exampleHost exampleRecordNoText "THEFT")
      ∧ exampleRecordNoText.description = .undefined
      ∧ (makePoint exampleHost exampleRecordNoText "THEFT").desc = .string ""
      ∧ (makePoint exampleHost exampleRecordNoText "THEFT").desc
          ≠ exampleRecordNoText.primary_type
      ∧ hasCoordinates exampleRecordEmptyDescription = true
      ∧ IsPointOf exampleHost exampleRecordEmptyDescription
          (makePoint exampleHost exampleRecordEmptyDescription "ROBBERY")
      ∧ (makePoint exampleHost exampleRecordEmptyDescription "ROBBERY").desc
          = .string "ROBBERY"
      ∧ (makePoint exampleHost exampleRecordEmptyDescription "ROBBERY").desc
          ≠ exampleRecordEmptyDescription.description :=
  ⟨by decide, ⟨[], [("THEFT", 1)], rfl⟩, rfl, rfl, by decide,
    by decide, ⟨[], [("ROBBERY", 1)], rfl⟩, rfl, by decide⟩

/-- C13, amended: in every success response, the desc of the point of each record that
passes the coordinate filter is the description of the record when that is truthy, that is
present and not empty; otherwise it is the primary type of the record when that is truthy;
otherwise it is the empty string. -/
theorem desc_fallback {F : Type} (host : Host F) (data : List RawIncident) (status : Nat)
    (body : AggregateResponse F)
    (h : crimeHandler host (.ok data) = .success status body) :
    List.Forall₂
      (fun d p =>
        p.desc = if truthy d.description then d.description
          else if truthy d.primary_type then d.primary_type else .string "")
      (data.filter hasCoordinates) body.points := by
  obtain ⟨_, _, _, hr⟩ := crimeHandler_success host data status body h
  refine (mapRecords_ok host _ _ _ _ hr).1.imp ?_
  intro d p hp
  obtain ⟨_, hmk⟩ := isPointOf_fields host d p hp
  rw [hmk]
  simp only [makePoint, jsOr]
  by_cases h1 : truthy d.description = true
  · simp only [h1, if_true]
  · by_cases h2 : truthy d.primary_type = true
    · simp only [h1, h2, if_true, if_false, Bool.false_eq_true]
    · simp only [h1, h2, if_false, Bool.false_eq_true]

theorem desc_fallback_witness :
    ∃ body : AggregateResponse JsValue,
      crimeHandler exampleHost
          (.ok [exampleRecord, exampleRecordEmptyDescription, exampleRecordNoText])
        = .success 200 body
      ∧ body.points.map (fun p => p.desc)
          = [.string "ARMED", .string "ROBBERY", .string ""]
      ∧ List.Forall₂
          (fun d p =>
            p.desc = if truthy d.description then d.description
              else if truthy d.primary_type then d.primary_type else .string "")
          [exampleRecord, exampleRecordEmptyDescription, exampleRecordNoText] body.points :=
  ⟨_, rfl, rfl,
    desc_fallback exampleHost
      [exampleRecord, exampleRecordEmptyDescription, exampleRecordNoText] 200 _ rfl⟩

/-! ## The counts per category -/

theorem mapCrimeType_mem_categories (t d : String) : mapCrimeType t d ∈ categories := by
  apply mapCrimeType_cases (fun r => r ∈ categories) t d <;> intros <;> decide

theorem statsGet_countType_self (stats : CrimeStats) (key : String) :
    statsGet (countType stats key) key = statsGet stats key + 1 := by
  simp only [statsGet, countType]
  induction stats with
  | nil => simp only [setStat, List.lookup, beq_self_eq_true, Option.getD_some,
      Option.getD_none]
  | cons e rest ih =>
    obtain ⟨k, v⟩ := e
    by_cases h : k = key
    · subst h
      simp only [setStat, List.lookup, beq_self_eq_true, if_true, Option.getD_some]
    · have hb : (key == k) = false := beq_false_of_ne (Ne.symm h)
      simp only [setStat, List.lookup, hb, if_neg h]
      exact ih

theorem lookup_setStat_ne (stats : CrimeStats) (key c : String) (value : Nat)
    (h : c ≠ key) : (setStat stats key value).lookup c = stats.lookup c := by
  induction stats with
  | nil =>
    have hb : (c == key) = false := beq_false_of_ne h
    simp only [setStat, List.lookup, hb]
  | cons e rest ih =>
    obtain ⟨k, v⟩ := e
    by_cases hk : k = key
    · subst hk
      have hb : (c == k) = false := beq_false_of_ne h
      simp only [setStat, if_true, List.lookup, hb]
    · simp only [setStat, if_neg hk, List.lookup, ih]

theorem statsGet_countType_ne (stats : CrimeStats) (key c : String) (h : c ≠ key) :
    statsGet (countType stats key) c = statsGet stats c := by
  simp only [statsGet, countType, lookup_setStat_ne stats key c _ h]

theorem statsKeys_setStat (stats : CrimeStats) (key : String) (value : Nat) :
    statsKeys (setStat stats key value)
      = if key ∈ statsKeys stats then statsKeys stats else statsKeys stats ++ [key] := by
  induction stats with
  | nil => rfl
  | cons e rest ih =>
    obtain ⟨k, v⟩ := e
    by_cases hk : k = key
    · subst hk
      simp only [setStat, if_true, statsKeys, List.map_cons, List.mem_cons, true_or]
    · simp only [statsKeys] at ih
      simp only [setStat, if_neg hk, statsKeys, List.map_cons, List.mem_cons, ih,
        (Ne.symm hk : ¬ key = k), false_or]
      split_ifs <;> rfl

theorem mem_statsKeys_countType (stats : CrimeStats) (key c : String) :
    c ∈ statsKeys (countType stats key) ↔ c ∈ statsKeys stats ∨ c = key := by
  simp only [countType, statsKeys_setStat]
  split_ifs with h
  · constructor
    · exact Or.inl
    · rintro (h1 | h1)
      · exact h1
      · rw [h1]; exact h
  · simp only [List.mem_append, List.mem_singleton]

theorem nodup_statsKeys_countType (stats : CrimeStats) (key : String)
    (h : (statsKeys stats).Nodup) : (statsKeys (countType stats key)).Nodup := by
  simp only [countType, statsKeys_setStat]
  split_ifs with hk
  · exact h
  · refine List.Nodup.append h (List.nodup_singleton _) ?_
    intro x hx hx1
    rw [List.mem_singleton.1 hx1] at hx
    exact hk hx

theorem mem_setStat (stats : CrimeStats) (key : String) (value : Nat) (e : String × Nat)
    (h : e ∈ setStat stats key value) : e ∈ stats ∨ e = (key, value) := by
  induction stats with
  | nil =>
    simp only [setStat, List.mem_singleton] at h
    exact Or.inr h
  | cons e1 rest ih =>
    obtain ⟨k, v⟩ := e1
    by_cases hk : k = key
    · subst hk
      simp only [setStat, if_true, List.mem_cons] at h
      rcases h with h | h
      · exact Or.inr h
      · exact Or.inl (List.mem_cons_of_mem _ h)
    · simp only [setStat, if_neg hk, List.mem_cons] at h
      rcases h with h | h
      · exact Or.inl (h ▸ List.mem_cons_self _ _)
      · rcases ih h with h1 | h1
        · exact Or.inl (List.mem_cons_of_mem _ h1)
        · exact Or.inr h1

theorem positive_countType (stats : CrimeStats) (key : String)
    (h : ∀ e ∈ stats, 1 ≤ e.2) : ∀ e ∈ countType stats key, 1 ≤ e.2 := by
  intro e he
  rcases mem_setStat _ _ _ _ he with h1 | h1
  · exact h e h1
  · rw [h1]; exact Nat.le_add_left 1 _

/-- What a successful run of the callback of `map` returns. -/
theorem mapRecord_eq_ok {F : Type} (host : Host F) (stats stats1 : CrimeStats)
    (d : RawIncident) (p : NormalizedPoint F) (h : mapRecord host stats d = .ok (stats1, p)) :
    stats1 = countType stats p.type ∧ p.type ∈ categories := by
  obtain ⟨⟨t, s, _, _, hty⟩, _⟩ := isPointOf_fields host d p ⟨stats, stats1, h⟩
  obtain ⟨ty, _, hst, hp, _⟩ := mapRecord_ok_inv host stats stats1 d p h
  have hpt : p.type = ty := by rw [hp]; rfl
  exact ⟨by rw [hpt]; exact hst, hty ▸ mapCrimeType_mem_categories t s⟩

/-- The counts after a successful run of `map`: each count has grown by the number of new
points of its type, the keys are the old ones and the types of the new points, they stay
distinct, and the stored counts stay positive. -/
theorem mapRecords_stats {F : Type} (host : Host F) (records : List RawIncident) :
    ∀ (stats stats1 : CrimeStats) (points : List (NormalizedPoint F)),
      mapRecords host stats records = .ok (stats1, points) →
      (∀ c, statsGet stats1 c = statsGet stats c + points.countP (fun p => p.type = c))
        ∧ (∀ c, c ∈ statsKeys stats1 ↔ c ∈ statsKeys stats ∨ ∃ p ∈ points, p.type = c)
        ∧ ((statsKeys stats).Nodup → (statsKeys stats1).Nodup)
        ∧ ((∀ e ∈ stats, 1 ≤ e.2) → ∀ e ∈ stats1, 1 ≤ e.2)
        ∧ ∀ p ∈ points, p.type ∈ categories := by
  induction records with
  | nil =>
    intro stats stats1 points h
    simp only [mapRecords, Except.ok.injEq, Prod.mk.injEq] at h
    obtain ⟨h1, h2⟩ := h
    subst h1 h2
    refine ⟨fun c => rfl, fun c => ?_, id, id, fun p hp => ?_⟩
    · simp only [List.not_mem_nil, false_and, exists_false, or_false]
    · cases hp
  | cons d rest ih =>
    intro stats stats1 points h
    simp only [mapRecords] at h
    cases hd : mapRecord host stats d with
    | error e => rw [hd] at h; cases h
    | ok r =>
      obtain ⟨statsA, p⟩ := r
      rw [hd] at h
      simp only [] at h
      cases hr : mapRecords host statsA rest with
      | error e => rw [hr] at h; cases h
      | ok r2 =>
        obtain ⟨statsB, ps⟩ := r2
        rw [hr] at h
        simp only [Except.ok.injEq, Prod.mk.injEq] at h
        obtain ⟨h1, h2⟩ := h
        subst h1 h2
        obtain ⟨hA, hcat⟩ := mapRecord_eq_ok host stats statsA d p hd
        obtain ⟨i1, i2, i3, i4, i5⟩ := ih statsA statsB ps hr
        subst hA
        refine ⟨fun c => ?_, fun c => ?_, fun hn => ?_, fun hpos => ?_, fun q hq => ?_⟩
        · rw [i1 c, List.countP_cons]
          by_cases hc : c = p.type
          · subst hc
            simp only [statsGet_countType_self, decide_True, if_true]
            omega
          · have hne : ¬ p.type = c := fun h => hc h.symm
            simp only [statsGet_countType_ne stats p.type c hc, hne, decide_False,
              Bool.false_eq_true, if_false]
            omega
        · rw [i2 c, mem_statsKeys_countType]
          simp only [List.mem_cons, exists_eq_or_imp]
          constructor
          · rintro ((h | h) | h)
            · exact Or.inl h
            · exact Or.inr (Or.inl h.symm)
            · exact Or.inr (Or.inr h)
          · rintro (h | h | h)
            · exact Or.inl (Or.inl h)
            · exact Or.inl (Or.inr h.symm)
            · exact Or.inr h
        · exact i3 (nodup_statsKeys_countType stats p.type hn)
        · exact i4 (positive_countType stats p.type hpos)
        · rcases List.mem_cons.1 hq with h | h
          · rw [h]; exact hcat
          · exact i5 q h

/-- C14: in every success response, for every category c the count stats[c], read as 0
when stats has no key c, is the number of points whose type is c; the keys of stats are
exactly the types that occur among the points, each key occurs once and is one of the five
categories, and every stored count is at least 1. -/
theorem stats_per_category {F : Type} (host : Host F) (data : List RawIncident)
    (status : Nat) (body : AggregateResponse F)
    (h : crimeHandler host (.ok data) = .success status body) :
    (∀ c, statsGet body.stats c = body.points.countP (fun p => p.type = c))
      ∧ (∀ c, c ∈ statsKeys body.stats ↔ ∃ p ∈ body.points, p.type = c)
      ∧ (statsKeys body.stats).Nodup
      ∧ (∀ c ∈ statsKeys body.stats, c ∈ categories)
      ∧ ∀ e ∈ body.stats, 1 ≤ e.2 := by
  obtain ⟨_, _, _, hr⟩ := crimeHandler_success host data status body h
  obtain ⟨i1, i2, i3, i4, i5⟩ := mapRecords_stats host _ _ _ _ hr
  refine ⟨fun c => ?_, fun c => ?_, i3 List.nodup_nil, fun c hc => ?_, i4 fun e he => ?_⟩
  · rw [i1 c]
    simp only [statsGet, List.lookup, Option.getD_none, Nat.zero_add]
  · rw [i2 c]
    simp only [statsKeys, List.map_nil, List.not_mem_nil, false_or]
  · obtain ⟨p, hp, hpc⟩ := ((i2 c).1 hc).resolve_left (by
      simp only [statsKeys, List.map_nil, List.not_mem_nil, not_false_eq_true])
    rw [← hpc]
    exact i5 p hp
  · cases he

theorem stats_per_category_witness :
    ∃ body : AggregateResponse JsValue,
      crimeHandler exampleHost
          (.ok [exampleRecord, exampleRecordNoText, exampleRecordNoCoordinates,
            exampleRecordNoBlock])
        = .success 200 body
      ∧ body.stats = [("ROBBERY", 2), ("THEFT", 1)]
      ∧ (∀ c, statsGet body.stats c = body.points.countP (fun p => p.type = c))
      ∧ (∀ c, c ∈ statsKeys body.stats ↔ ∃ p ∈ body.points, p.type = c)
      ∧ (statsKeys body.stats).Nodup
      ∧ (∀ c ∈ statsKeys body.stats, c ∈ categories)
      ∧ ∀ e ∈ body.stats, 1 ≤ e.2 :=
  ⟨_, rfl, rfl,
    stats_per_category exampleHost
      [exampleRecord, exampleRecordNoText, exampleRecordNoCoordinates, exampleRecordNoBlock]
      200 _ rfl⟩

/-! ## Which rules of the ladder decide -/

/-- C15 as stated fails: the type DOMESTIC BATTERY has no exact-match rule and is
classified by the substring rule for BATTERY, while the classifier without the substring
rules gives the default THEFT. -/
theorem substring_rule_reached :
    toUpperCase "DOMESTIC BATTERY" ∉ exactMatchNames
      ∧ mapCrimeType "DOMESTIC BATTERY" "" = "BATTERY"
      ∧ mapCrimeTypeExactOnly "DOMESTIC BATTERY" "" = "THEFT"
      ∧ mapCrimeType "DOMESTIC BATTERY" "" ≠ mapCrimeTypeExactOnly "DOMESTIC BATTERY" "" := by
  refine ⟨by decide, by decide, by decide, by decide⟩

/-- C15, amended: mapCrimeType(t, d) equals the classifier without the four substring rules
on every input except those with no hate-crime signal whose upper-cased type is none of
the exact-match names and contains BATTERY, ASSAULT or ROBBERY but not THEFT; on those
mapCrimeType returns BATTERY, ASSAULT or ROBBERY and the reduced classifier THEFT. -/
theorem mapCrimeType_eq_exactOnly_iff (t d : String) :
    (mapCrimeType t d = mapCrimeTypeExactOnly t d
        ↔ ¬ substringRuleDecides (toUpperCase t) (toUpperCase d))
      ∧ (substringRuleDecides (toUpperCase t) (toUpperCase d) →
          mapCrimeType t d ∈ ["BATTERY", "ASSAULT", "ROBBERY"]
            ∧ mapCrimeTypeExactOnly t d = "THEFT") := by
  have hex : ∀ {T : String}, T ∉ exactMatchNames →
      T ∉ ["THEFT", "BURGLARY", "MOTOR VEHICLE THEFT"] ∧ T ∉ ["BATTERY", "AGGRAVATED BATTERY"]
        ∧ T ∉ ["ASSAULT", "AGGRAVATED ASSAULT"] ∧ T ∉ ["ROBBERY", "ARMED ROBBERY"] := by
    intro T h
    rw [mem_exactMatchNames] at h
    exact ⟨fun g => h (Or.inl g), fun g => h (Or.inr (Or.inl g)),
      fun g => h (Or.inr (Or.inr (Or.inl g))), fun g => h (Or.inr (Or.inr (Or.inr g)))⟩
  have hdef : ∀ hn : ¬ hateCrimeSignal (toUpperCase t) (toUpperCase d),
      toUpperCase t ∉ exactMatchNames → mapCrimeTypeExactOnly t d = "THEFT" := by
    intro hn he
    obtain ⟨e2, e3, e4, e5⟩ := hex he
    simp only [mapCrimeTypeExactOnly, if_neg hn, if_neg e2, if_neg e3, if_neg e4, if_neg e5]
  apply mapCrimeType_cases
    (fun r => (r = mapCrimeTypeExactOnly t d
        ↔ ¬ substringRuleDecides (toUpperCase t) (toUpperCase d))
      ∧ (substringRuleDecides (toUpperCase t) (toUpperCase d) →
          r ∈ ["BATTERY", "ASSAULT", "ROBBERY"] ∧ mapCrimeTypeExactOnly t d = "THEFT")) t d
  · intro h
    have hns : ¬ substringRuleDecides (toUpperCase t) (toUpperCase d) := fun g => g.1 h
    exact ⟨iff_of_true (by simp only [mapCrimeTypeExactOnly, if_pos h]) hns,
      fun g => absurd g hns⟩
  · intro hn h2
    have hns : ¬ substringRuleDecides (toUpperCase t) (toUpperCase d) :=
      fun g => g.2.1 ((mem_exactMatchNames _).2 (Or.inl h2))
    exact ⟨iff_of_true (by simp only [mapCrimeTypeExactOnly, if_neg hn, if_pos h2]) hns,
      fun g => absurd g hns⟩
  · intro hn h2 h3
    have hns : ¬ substringRuleDecides (toUpperCase t) (toUpperCase d) :=
      fun g => g.2.1 ((mem_exactMatchNames _).2 (Or.inr (Or.inl h3)))
    exact ⟨iff_of_true
      (by simp only [mapCrimeTypeExactOnly, if_neg hn, if_neg h2, if_pos h3]) hns,
      fun g => absurd g hns⟩
  · intro hn h2 h3 h4
    have hns : ¬ substringRuleDecides (toUpperCase t) (toUpperCase d) :=
      fun g => g.2.1 ((mem_exactMatchNames _).2 (Or.inr (Or.inr (Or.inl h4))))
    exact ⟨iff_of_true
      (by simp only [mapCrimeTypeExactOnly, if_neg hn, if_neg h2, if_neg h3, if_pos h4]) hns,
      fun g => absurd g hns⟩
  · intro hn h2 h3 h4 h5
    have hns : ¬ substringRuleDecides (toUpperCase t) (toUpperCase d) :=
      fun g => g.2.1 ((mem_exactMatchNames _).2 (Or.inr (Or.inr (Or.inr h5))))
    exact ⟨iff_of_true
      (by simp only [mapCrimeTypeExactOnly, if_neg hn, if_neg h2, if_neg h3, if_neg h4,
        if_pos h5]) hns,
      fun g => absurd g hns⟩
  · intro hn he h1
    have hns : ¬ substringRuleDecides (toUpperCase t) (toUpperCase d) := by
      intro g
      rw [g.2.2.1] at h1
      exact absurd h1 (by decide)
    exact ⟨iff_of_true (hdef hn he).symm hns, fun g => absurd g hns⟩
  · intro hn he h1 h2
    have hs : substringRuleDecides (toUpperCase t) (toUpperCase d) :=
      ⟨hn, he, h1, Or.inl h2⟩
    refine ⟨iff_of_false ?_ (not_not_intro hs), fun _ => ⟨by decide, hdef hn he⟩⟩
    rw [hdef hn he]; decide
  · intro hn he h1 _ h3
    have hs : substringRuleDecides (toUpperCase t) (toUpperCase d) :=
      ⟨hn, he, h1, Or.inr (Or.inl h3)⟩
    refine ⟨iff_of_false ?_ (not_not_intro hs), fun _ => ⟨by decide, hdef hn he⟩⟩
    rw [hdef hn he]; decide
  · intro hn he h1 _ _ h4
    have hs : substringRuleDecides (toUpperCase t) (toUpperCase d) :=
      ⟨hn, he, h1, Or.inr (Or.inr h4)⟩
    refine ⟨iff_of_false ?_ (not_not_intro hs), fun _ => ⟨by decide, hdef hn he⟩⟩
    rw [hdef hn he]; decide
  · intro hn he _ h2 h3 h4
    have hns : ¬ substringRuleDecides (toUpperCase t) (toUpperCase d) := by
      intro g
      rcases g.2.2.2 with g1 | g1 | g1
      · rw [h2] at g1; exact absurd g1 (by decide)
      · rw [h3] at g1; exact absurd g1 (by decide)
      · rw [h4] at g1; exact absurd g1 (by decide)
    exact ⟨iff_of_true (hdef hn he).symm hns, fun g => absurd g hns⟩

theorem mapCrimeType_eq_exactOnly_iff_witness :
    mapCrimeType "Attempt Robbery" "" ∈ ["BATTERY", "ASSAULT", "ROBBERY"]
      ∧ mapCrimeTypeExactOnly "Attempt Robbery" "" = "THEFT" :=
  (mapCrimeType_eq_exactOnly_iff "Attempt Robbery" "").2
    ⟨by decide, by decide, by decide, Or.inr (Or.inr (by decide))⟩

/-- The substring rules on the exact-match names: each name contains the token of its own
category and no earlier token, and BURGLARY contains no token. -/
theorem exactMatchNames_tokens :
    (∀ T ∈ ["THEFT", "MOTOR VEHICLE THEFT"], includes T "THEFT" = true)
      ∧ (∀ tok ∈ fallbackTokens, includes "BURGLARY" tok = false)
      ∧ (∀ T ∈ ["BATTERY", "AGGRAVATED BATTERY"],
          includes T "THEFT" = false ∧ includes T "BATTERY" = true)
      ∧ (∀ T ∈ ["ASSAULT", "AGGRAVATED ASSAULT"],
          includes T "THEFT" = false ∧ includes T "BATTERY" = false
            ∧ includes T "ASSAULT" = true)
      ∧ (∀ T ∈ ["ROBBERY", "ARMED ROBBERY"],
          includes T "THEFT" = false ∧ includes T "BATTERY" = false
            ∧ includes T "ASSAULT" = false ∧ includes T "ROBBERY" = true) := by
  refine ⟨by decide, by decide, by decide, by decide, by decide⟩

/-- C17: for all strings t and d, mapCrimeType(t, d) equals the classifier that keeps only
the hate-crime rule, the four substring rules in the order THEFT, BATTERY, ASSAULT, ROBBERY
and the default THEFT. -/
theorem mapCrimeType_eq_substringOnly (t d : String) :
    mapCrimeType t d = mapCrimeTypeSubstringOnly t d := by
  obtain ⟨k1, k2, k3, k4, k5⟩ := exactMatchNames_tokens
  apply mapCrimeType_cases (fun r => r = mapCrimeTypeSubstringOnly t d) t d
  · intro h
    simp only [mapCrimeTypeSubstringOnly, if_pos h]
  · intro hn h2
    simp only [List.mem_cons, List.mem_singleton, List.not_mem_nil, or_false] at h2
    rcases h2 with h | h | h
    · have := k1 _ (by rw [h]; decide : toUpperCase t ∈ ["THEFT", "MOTOR VEHICLE THEFT"])
      simp only [mapCrimeTypeSubstringOnly, if_neg hn, this, if_true]
    · have a1 := k2 "THEFT" (by decide)
      have a2 := k2 "BATTERY" (by decide)
      have a3 := k2 "ASSAULT" (by decide)
      have a4 := k2 "ROBBERY" (by decide)
      rw [← h] at a1 a2 a3 a4
      simp only [mapCrimeTypeSubstringOnly, if_neg hn, a1, a2, a3, a4, Bool.false_eq_true,
        if_false]
    · have := k1 _ (by rw [h]; decide : toUpperCase t ∈ ["THEFT", "MOTOR VEHICLE THEFT"])
      simp only [mapCrimeTypeSubstringOnly, if_neg hn, this, if_true]
  · intro hn _ h3
    obtain ⟨a1, a2⟩ := k3 _ h3
    simp only [mapCrimeTypeSubstringOnly, if_neg hn, a1, a2, Bool.false_eq_true, if_false,
      if_true]
  · intro hn _ _ h4
    obtain ⟨a1, a2, a3⟩ := k4 _ h4
    simp only [mapCrimeTypeSubstringOnly, if_neg hn, a1, a2, a3, Bool.false_eq_true,
      if_false, if_true]
  · intro hn _ _ _ h5
    obtain ⟨a1, a2, a3, a4⟩ := k5 _ h5
    simp only [mapCrimeTypeSubstringOnly, if_neg hn, a1, a2, a3, a4, Bool.false_eq_true,
      if_false, if_true]
  · intro hn _ h1
    simp only [mapCrimeTypeSubstringOnly, if_neg hn, h1, if_true]
  · intro hn _ h1 h2
    simp only [mapCrimeTypeSubstringOnly, if_neg hn, h1, h2, Bool.false_eq_true, if_false,
      if_true]
  · intro hn _ h1 h2 h3
    simp only [mapCrimeTypeSubstringOnly, if_neg hn, h1, h2, h3, Bool.false_eq_true,
      if_false, if_true]
  · intro hn _ h1 h2 h3 h4
    simp only [mapCrimeTypeSubstringOnly, if_neg hn, h1, h2, h3, h4, Bool.false_eq_true,
      if_false, if_true]
  · intro hn _ h1 h2 h3 h4
    simp only [mapCrimeTypeSubstringOnly, if_neg hn, h1, h2, h3, h4, Bool.false_eq_true,
      if_false]

/-- C18: for all strings t and d, when mapCrimeType(t, d) is BATTERY, ASSAULT or ROBBERY,
the upper-cased type contains BATTERY, ASSAULT or ROBBERY respectively and does not contain
THEFT. -/
theorem mapCrimeType_justified (t d : String) :
    (mapCrimeType t d = "BATTERY" →
        includes (toUpperCase t) "BATTERY" = true ∧ includes (toUpperCase t) "THEFT" = false)
      ∧ (mapCrimeType t d = "ASSAULT" →
        includes (toUpperCase t) "ASSAULT" = true ∧ includes (toUpperCase t) "THEFT" = false)
      ∧ (mapCrimeType t d = "ROBBERY" →
        includes (toUpperCase t) "ROBBERY" = true
          ∧ includes (toUpperCase t) "THEFT" = false) := by
  obtain ⟨_, _, k3, k4, k5⟩ := exactMatchNames_tokens
  apply mapCrimeType_cases
    (fun r => (r = "BATTERY" →
        includes (toUpperCase t) "BATTERY" = true ∧ includes (toUpperCase t) "THEFT" = false)
      ∧ (r = "ASSAULT" →
        includes (toUpperCase t) "ASSAULT" = true ∧ includes (toUpperCase t) "THEFT" = false)
      ∧ (r = "ROBBERY" →
        includes (toUpperCase t) "ROBBERY" = true
          ∧ includes (toUpperCase t) "THEFT" = false)) t d
  · intro _
    exact ⟨fun g => absurd g (by decide), fun g => absurd g (by decide),
      fun g => absurd g (by decide)⟩
  · intro _ _
    exact ⟨fun g => absurd g (by decide), fun g => absurd g (by decide),
      fun g => absurd g (by decide)⟩
  · intro _ _ h3
    obtain ⟨a1, a2⟩ := k3 _ h3
    exact ⟨fun _ => ⟨a2, a1⟩, fun g => absurd g (by decide), fun g => absurd g (by decide)⟩
  · intro _ _ _ h4
    obtain ⟨a1, _, a3⟩ := k4 _ h4
    exact ⟨fun g => absurd g (by decide), fun _ => ⟨a3, a1⟩, fun g => absurd g (by decide)⟩
  · intro _ _ _ _ h5
    obtain ⟨a1, _, _, a4⟩ := k5 _ h5
    exact ⟨fun g => absurd g (by decide), fun g => absurd g (by decide), fun _ => ⟨a4, a1⟩⟩
  · intro _ _ _
    exact ⟨fun g => absurd g (by decide), fun g => absurd g (by decide),
      fun g => absurd g (by decide)⟩
  · intro _ _ h1 h2
    exact ⟨fun _ => ⟨h2, h1⟩, fun g => absurd g (by decide), fun g => absurd g (by decide)⟩
  · intro _ _ h1 _ h3
    exact ⟨fun g => absurd g (by decide), fun _ => ⟨h3, h1⟩, fun g => absurd g (by decide)⟩
  · intro _ _ h1 _ _ h4
    exact ⟨fun g => absurd g (by decide), fun g => absurd g (by decide), fun _ => ⟨h4, h1⟩⟩
  · intro _ _ _ _ _ _
    exact ⟨fun g => absurd g (by decide), fun g => absurd g (by decide),
      fun g => absurd g (by decide)⟩

theorem mapCrimeType_justified_witness :
    includes (toUpperCase "Simple Assault") "ASSAULT" = true
      ∧ includes (toUpperCase "Simple Assault") "THEFT" = false :=
  (mapCrimeType_justified "Simple Assault" "in the street").2.1 (by decide)

/-! ## Severity of the points, and well-typed input -/

theorem severity_of_category (c : String) (h : c ∈ categories) :
    ∃ n : Int, getCrimeSeverity c = .number n ∧ n ∈ [3, 5, 7, 8, 10]
      ∧ (n = 10 ↔ c = "HATE_CRIME") := by
  simp only [categories, List.mem_cons, List.mem_singleton, List.not_mem_nil, or_false] at h
  rcases h with h | h | h | h | h <;> subst h
  · exact ⟨10, by decide, by decide, by decide⟩
  · exact ⟨3, by decide, by decide, by decide⟩
  · exact ⟨5, by decide, by decide, by decide⟩
  · exact ⟨7, by decide, by decide, by decide⟩
  · exact ⟨8, by decide, by decide, by decide⟩

theorem forall₂_exists_left {α β : Type} (R : α → β → Prop) (l1 : List α) (l2 : List β)
    (h : List.Forall₂ R l1 l2) : ∀ b ∈ l2, ∃ a ∈ l1, R a b := by
  induction h with
  | nil => intro b hb; cases hb
  | cons hab _ ih =>
    intro b hb
    rcases List.mem_cons.1 hb with hb1 | hb1
    · subst hb1
      exact ⟨_, List.mem_cons_self _ _, hab⟩
    · obtain ⟨a, ha, hr⟩ := ih b hb1
      exact ⟨a, List.mem_cons_of_mem _ ha, hr⟩

/-- C16: for all strings t and d, getCrimeSeverity(mapCrimeType(t, d)) is one of the
integers 3, 5, 7, 8, 10; and in every success response each point has a severity between 3
and 10 that is the lookup value of its own type, and is 10 exactly when the type is
HATE_CRIME. -/
theorem severity_range :
    (∀ t d : String, ∃ n : Int, getCrimeSeverity (mapCrimeType t d) = .number n
        ∧ n ∈ [3, 5, 7, 8, 10] ∧ 3 ≤ n ∧ n ≤ 10)
    ∧ (∀ {F : Type} (host : Host F) (data : List RawIncident) (status : Nat)
        (body : AggregateResponse F),
        crimeHandler host (.ok data) = .success status body →
        ∀ p ∈ body.points, p.severity = getCrimeSeverity p.type
          ∧ ∃ n : Int, p.severity = .number n ∧ 3 ≤ n ∧ n ≤ 10
              ∧ (n = 10 ↔ p.type = "HATE_CRIME")) := by
  have bounds : ∀ n : Int, n ∈ [3, 5, 7, 8, 10] → 3 ≤ n ∧ n ≤ 10 := by
    intro n hn
    simp only [List.mem_cons, List.mem_singleton, List.not_mem_nil, or_false] at hn
    omega
  constructor
  · intro t d
    obtain ⟨n, h1, h2, _⟩ := severity_of_category _ (mapCrimeType_mem_categories t d)
    exact ⟨n, h1, h2, bounds n h2⟩
  · intro F host data status body h p hp
    obtain ⟨_, _, _, hr⟩ := crimeHandler_success host data status body h
    obtain ⟨d, _, hd⟩ := forall₂_exists_left _ _ _ (mapRecords_ok host _ _ _ _ hr).1 p hp
    obtain ⟨_, hmk⟩ := isPointOf_fields host d p hd
    have hsev : p.severity = getCrimeSeverity p.type := by rw [hmk]; rfl
    have hcat : p.type ∈ categories := (mapRecords_stats host _ _ _ _ hr).2.2.2.2 p hp
    obtain ⟨n, h1, h2, h3⟩ := severity_of_category _ hcat
    exact ⟨hsev, n, hsev.trans h1, (bounds n h2).1, (bounds n h2).2, h3⟩

theorem severity_range_witness :
    ∃ body : AggregateResponse JsValue,
      crimeHandler exampleHost (.ok [exampleRecord, exampleRecordNoText]) = .success 200 body
      ∧ body.points.map (fun p => p.severity) = [.number 8, .number 3]
      ∧ ∀ p ∈ body.points, p.severity = getCrimeSeverity p.type
          ∧ ∃ n : Int, p.severity = .number n ∧ 3 ≤ n ∧ n ≤ 10
              ∧ (n = 10 ↔ p.type = "HATE_CRIME") :=
  ⟨_, rfl, rfl, severity_range.2 exampleHost [exampleRecord, exampleRecordNoText] 200 _ rfl⟩

/-- C19: when the fetch succeeds with a list of records in which every one of latitude,
longitude, primary_type, description, date, block and arrest is absent, null or a string,
the handler answers with status 200 and an aggregate response, never with the error
envelope; on each such record mapCrimeType is called with two strings, the empty string
standing in for an absent, null or empty primary_type or description, and returns. -/
theorem wellTyped_never_fails {F : Type} (host : Host F) (data : List RawIncident)
    (h : ∀ d ∈ data, d.WellTyped) :
    (∃ body, crimeHandler host (.ok data) = .success 200 body)
      ∧ (crimeHandler host (.ok data)).status = 200
      ∧ (∀ status error message,
          crimeHandler host (.ok data) ≠ .failure status error message)
      ∧ ∀ d ∈ data, ∃ t s, jsOr d.primary_type (.string "") = .string t
          ∧ jsOr d.description (.string "") = .string s
          ∧ mapCrimeTypeCall (jsOr d.primary_type (.string ""))
              (jsOr d.description (.string "")) = .ok (mapCrimeType t s) := by
  obtain ⟨body, hb⟩ := crimeHandler_ok_of_wellTyped host data h
  refine ⟨⟨body, hb⟩, by rw [hb]; rfl, ?_, ?_⟩
  · intro status error message hf
    rw [hb] at hf
    cases hf
  · intro d hd
    obtain ⟨t, ht⟩ := optionalString_or_string _ (h d hd).2.2.1
    obtain ⟨s, hs⟩ := optionalString_or_string _ (h d hd).2.2.2.1
    exact ⟨t, s, ht, hs, by simp only [ht, hs, mapCrimeTypeCall, jsOr_string]⟩

theorem wellTyped_never_fails_witness :
    ∃ body : AggregateResponse JsValue,
      crimeHandler exampleHost
          (.ok [exampleRecord, exampleRecordNoText, exampleRecordNoCoordinates])
        = .success 200 body :=
  (wellTyped_never_fails exampleHost
    [exampleRecord, exampleRecordNoText, exampleRecordNoCoordinates] (by decide)).1

end SafeRoute
